import Mathlib

/-!
Verification of the natural-language specification of the
`terraform-provider-ibm` data-source adapters against a shallow Lean
embedding of their Go source:

* `ibm/service/kms/data_source_ibm_kms_key.go` (`dataSourceIBMKMSKeyRead`
  and the `ibm_project_config` data source that shares the file),
* `ibm/service/power/data_source_ibm_pi_storage_type_capacity.go`
  (`dataSourceIBMPIStorageTypeCapacityRead`).

Machine integers of the Go code (`int`, `int64`) are modelled as `Int`;
all arithmetic performed by the handlers stays far below 2^63 whenever it
is reached, so no wrap-around modelling is needed.  Go pointers become
`Option`, a nil-pointer dereference becomes an explicit error outcome,
fallible calls return `Except`, and the mutable `*schema.ResourceData`
becomes an explicit record of the attributes the handlers write.
External SDK calls (keyprotect, resource-controller, power, project) are
uninterpreted oracles supplied as record fields, so theorems quantify
over every response sequence the SDKs can produce.
-/

set_option autoImplicit false

/-! ## Strings split on a separator character

`strings.Split(instanceID, ":")` from Go, used by `dataSourceIBMKMSKeyRead`
(lines 185-189) to extract the service instance GUID out of a CRN.
`String` in Lean is a structure holding a `List Char`, so the split is
defined on the character list.
-/

/-- Splitting a character list at every occurrence of `c`, exactly as Go's
`strings.Split` with a one-character separator: the empty input yields one
empty field, and every occurrence of `c` starts a new field. -/
def splitOnChar (c : Char) : List Char → List (List Char)
  | [] => [[]]
  | x :: xs =>
    if x = c then
      [] :: splitOnChar c xs
    else
      match splitOnChar c xs with
      | [] => [[x]]
      | h :: t => (x :: h) :: t

/-- The colon-separated segments of a string, as `strings.Split(s, ":")`
produces them. -/
def crnSegments (s : String) : List String :=
  (splitOnChar ':' s.data).map String.mk

/-- Lines 185-189 of `data_source_ibm_kms_key.go`: when the configured
`instance_id` splits into more than three colon-separated segments it is a
CRN and the third-from-last segment is used as the instance ID; otherwise
the input is used unchanged. -/
def extractInstanceID (s : String) : String :=
  let parts := crnSegments s
  if 3 < parts.length then parts.getD (parts.length - 3) "" else s

/-! ## Key-protect SDK data (`kp` package) -/

/-- The fields of `kp.Key` that `dataSourceIBMKMSKeyRead` copies into the
`keys` attribute. -/
structure KpKey where
  id : String
  name : String
  crn : String
  extractable : Bool
  aliases : List String
  keyRingID : String
deriving DecidableEq, Repr

/-- The `kp.KeysMetadata` field consumed by the pagination loop
(`keys.Metadata.NumberOfKeys`, a Go `int`). -/
structure KeysMetadata where
  numberOfKeys : Int
deriving DecidableEq, Repr

/-- A `kp.Keys` response of `api.GetKeys`. -/
structure KpKeys where
  metadata : KeysMetadata
  keys : List KpKey
deriving DecidableEq, Repr

/-- An opaque `kp.Policy` value; the handler only tests the list of
policies for emptiness and passes it to `flex.FlattenKeyPolicies`. -/
structure KpPolicy where
  raw : String
deriving DecidableEq, Repr

/-- Modelled from the spec: `flex.FlattenKeyPolicies` (repository code
outside `src/`) converts the policy structs into the flat attribute shape;
no claim inspects the result, so it is modelled as the evident flattening
of the opaque policy payloads. -/
def flattenKeyPolicies (ps : List KpPolicy) : List String :=
  ps.map KpPolicy.raw

/-- One entry of the computed `keys` attribute, as built by the
`keyInstance` map in all three branches of `dataSourceIBMKMSKeyRead`.
`policies` is `none` when `len(policies) == 0` (the code only logs then
and leaves the map entry unset). -/
structure KeyInstance where
  id : String
  name : String
  crn : String
  standardKey : Bool
  aliases : List String
  keyRingId : String
  policies : Option (List String)
deriving DecidableEq, Repr

/-- The `keyInstance` map built for one key (lines 281-298 and the
identical blocks of the `key_id` and `alias` branches). -/
def mkKeyInstance (key : KpKey) (policies : List KpPolicy) : KeyInstance :=
  { id := key.id
    name := key.name
    crn := key.crn
    standardKey := key.extractable
    aliases := key.aliases
    keyRingId := key.keyRingID
    policies := if policies = [] then none else some (flattenKeyPolicies policies) }

/-! ## The pagination loop of `dataSourceIBMKMSKeyRead` (lines 230-258) -/

/-- The error string produced by
`fmt.Errorf("[ERROR] Get Keys failed with error: %s", err)`. -/
def getKeysErrMsg (e : String) : String :=
  "[ERROR] Get Keys failed with error: " ++ e

/-- One `api.GetKeys(ctx, size, offset)` call recorded by the loop
embedding, together with the response the SDK oracle produced for it. -/
structure GKCall where
  size : Int
  offset : Int
  result : Except String KpKeys
deriving Repr

/-- The `for { ... }` pagination loop of lines 230-258, which runs when a
non-zero `limit` was configured.  `g` is the `api.GetKeys` oracle; `L` is
`limitVal`; the `Int` argument is the running `offset` (initially 0); the
accumulated `totalKeys` of the Go code is the concatenation of the
returned pages.  The loop is instrumented to also return the list of
`GetKeys` calls it issued.  `fuel` bounds the number of iterations only so
that the function is total: a `none` result means the Go loop has not
terminated within `fuel` iterations — note that when `offset < limitVal`
fails, the loop body does nothing at all and the `for` spins forever,
which the fuel makes observable. -/
def getKeysLoop (g : Int → Int → Except String KpKeys) (L : Int) :
    Nat → Int → Option (List GKCall × Except String (List KpKey))
  | 0, _ => none
  | fuel + 1, off =>
    if off < L then
      if L - off < 200 then
        match g (L - off) off with
        | Except.error e =>
          some ([⟨L - off, off, Except.error e⟩], Except.error (getKeysErrMsg e))
        | Except.ok ks =>
          some ([⟨L - off, off, Except.ok ks⟩], Except.ok ks.keys)
      else
        match g 200 off with
        | Except.error e =>
          some ([⟨200, off, Except.error e⟩], Except.error (getKeysErrMsg e))
        | Except.ok ks =>
          if ks.metadata.numberOfKeys < 200 ∨ off + 200 = L then
            some ([⟨200, off, Except.ok ks⟩], Except.ok ks.keys)
          else
            match getKeysLoop g L fuel (off + 200) with
            | none => none
            | some (tr, Except.error e) =>
              some (⟨200, off, Except.ok ks⟩ :: tr, Except.error e)
            | some (tr, Except.ok rest) =>
              some (⟨200, off, Except.ok ks⟩ :: tr, Except.ok (ks.keys ++ rest))
    else
      getKeysLoop g L fuel off

/-! ## The remaining oracles and state of `dataSourceIBMKMSKeyRead` -/

/-- The triple returned by `rsConClient.GetResourceInstance`: the error,
the instance data (of which only `.Extensions` is consumed, modelled as an
opaque payload), and the detailed response `resp` as the `%s` formatting of
line 202 renders it. -/
structure RCResult where
  err : Option String
  instanceData : Option String
  resp : String
deriving DecidableEq, Repr

/-- How Go's `%s` verb renders the `error` operand of line 202: the
message when non-nil. -/
def errStr : Option String → String
  | some m => m
  | none => "%!s(<nil>)"

/-- The error string of line 202,
`fmt.Errorf("[ERROR] Error retrieving resource instance: %s with resp code: %s", err, resp)`. -/
def resourceInstanceErrMsg (e resp : String) : String :=
  "[ERROR] Error retrieving resource instance: " ++ e ++ " with resp code: " ++ resp

/-- The error string of line 261,
`fmt.Errorf("[ERROR] No keys in instance  %s", instanceID)` (two spaces as
in the source). -/
def noKeysMsg (instanceID : String) : String :=
  "[ERROR] No keys in instance  " ++ instanceID

/-- The error string of line 276,
`fmt.Errorf("[ERROR] No keys with name %s in instance  %s", keyName, instanceID)`. -/
def noKeysWithNameMsg (keyName instanceID : String) : String :=
  "[ERROR] No keys with name " ++ keyName ++ " in instance  " ++ instanceID

/-- The error string of lines 291/319/347,
`fmt.Errorf("[ERROR] Failed to read policies: %s", err)`. -/
def policiesErrMsg (e : String) : String :=
  "[ERROR] Failed to read policies: " ++ e

/-- The external calls `dataSourceIBMKMSKeyRead` can issue, as
uninterpreted oracles.  `kmAPIErr` / `rcErr` are the errors of obtaining
the two clients from the session (returned raw by lines 182 and 194);
`kmsEndpointURL` stands for the repository helper `KmsEndpointURL`
(outside `src/`), taking the endpoint type and the instance extensions and
returning the URL or an error that line 207 returns raw. -/
structure KmsApi where
  kmAPIErr : Option String
  rcErr : Option String
  getResourceInstance : String → RCResult
  kmsEndpointURL : String → String → Except String String
  getKeys : Int → Int → Except String KpKeys
  getKey : String → Except String KpKey
  getPolicies : String → Except String (List KpPolicy)

/-- The configured attributes read through `d.Get` / `d.GetOk`.  Terraform
returns the zero value `""` (resp. `0`) for unset string (resp. int)
attributes, and `d.GetOk` reports `ok` exactly for non-zero values, so
optional strings are carried as plain strings with `""` for absent. -/
structure KmsConfig where
  instanceId : String
  limit : Int
  keyName : String
  keyId : String
  aliasName : String
  endpointType : String
deriving DecidableEq, Repr

/-- The attributes `dataSourceIBMKMSKeyRead` writes: the resource ID
(`d.SetId`), the computed `keys` list and the stored-back `instance_id`.
All start out unset. -/
structure KmsState where
  id : Option String
  keysAttr : Option (List KeyInstance)
  instanceIdAttr : Option String
deriving DecidableEq, Repr

/-- The per-key loop of lines 281-300: for each matched key a
`keyInstance` map is built and `api.GetPolicies` is called, a failure
aborting the whole read with the wrapped message of line 291. -/
def buildKeyMaps (gp : String → Except String (List KpPolicy)) :
    List KpKey → Except String (List KeyInstance)
  | [] => Except.ok []
  | key :: rest =>
    match gp key.id with
    | Except.error e => Except.error (policiesErrMsg e)
    | Except.ok pols =>
      match buildKeyMaps gp rest with
      | Except.error e => Except.error e
      | Except.ok tail => Except.ok (mkKeyInstance key pols :: tail)

/-- Lines 216-258: how `totalKeys` is produced in the `key_name` branch.
A zero `limit` issues the single legacy `GetKeys(ctx, 0, 0)` call; any
other value runs the pagination loop.  `none` again means the loop did not
terminate within `fuel` iterations. -/
def fetchTotalKeys (api : KmsApi) (cfg : KmsConfig) (fuel : Nat) :
    Option (Except String (List KpKey)) :=
  if cfg.limit = 0 then
    match api.getKeys 0 0 with
    | Except.error e => some (Except.error (getKeysErrMsg e))
    | Except.ok ks => some (Except.ok ks.keys)
  else
    match getKeysLoop api.getKeys cfg.limit fuel 0 with
    | none => none
    | some (_, r) => some r

/-- The three query branches of `dataSourceIBMKMSKeyRead` (lines 214-359):
`key_name` (with the paginated fetch), `key_id`, and the `alias` fallback.
`instanceID` is the possibly CRN-extracted instance ID computed by the
prelude. -/
def kmsKeyBranches (api : KmsApi) (cfg : KmsConfig) (fuel : Nat) (instanceID : String) :
    Option (Except String KmsState) :=
  if cfg.keyName ≠ "" then
    match fetchTotalKeys api cfg fuel with
    | none => none
    | some (Except.error e) => some (Except.error e)
    | some (Except.ok totalKeys) =>
      if totalKeys = [] then
        some (Except.error (noKeysMsg instanceID))
      else
        let keyName := if cfg.keyName ≠ "" then cfg.keyName else ""
        let matchKeys :=
          if cfg.keyName ≠ "" then
            totalKeys.filter (fun k => k.name == keyName)
          else totalKeys
        if matchKeys = [] then
          some (Except.error (noKeysWithNameMsg keyName instanceID))
        else
          match buildKeyMaps api.getPolicies matchKeys with
          | Except.error e => some (Except.error e)
          | Except.ok keyMap =>
            some (Except.ok
              { id := some instanceID
                keysAttr := some keyMap
                instanceIdAttr := some instanceID })
  else if cfg.keyId ≠ "" then
    match api.getKey cfg.keyId with
    | Except.error e => some (Except.error (getKeysErrMsg e))
    | Except.ok key =>
      match api.getPolicies key.id with
      | Except.error e => some (Except.error (policiesErrMsg e))
      | Except.ok pols =>
        some (Except.ok
          { id := some instanceID
            keysAttr := some [mkKeyInstance key pols]
            instanceIdAttr := some instanceID })
  else
    match api.getKey cfg.aliasName with
    | Except.error e => some (Except.error (getKeysErrMsg e))
    | Except.ok key =>
      match api.getPolicies key.id with
      | Except.error e => some (Except.error (policiesErrMsg e))
      | Except.ok pols =>
        some (Except.ok
          { id := some instanceID
            keysAttr := some [mkKeyInstance key pols]
            instanceIdAttr := some instanceID })

/-- The whole of `dataSourceIBMKMSKeyRead` (lines 179-362).  The result is
`none` when the pagination loop diverges, `some (Except.error e)` when the
handler returns the error `e`, and `some (Except.ok st)` when it returns
nil having written the attributes `st`. -/
def kmsRead (api : KmsApi) (cfg : KmsConfig) (fuel : Nat) :
    Option (Except String KmsState) :=
  match api.kmAPIErr with
  | some e => some (Except.error e)
  | none =>
    match api.rcErr with
    | some e => some (Except.error e)
    | none =>
      if (api.getResourceInstance (extractInstanceID cfg.instanceId)).err ≠ none ∨
          (api.getResourceInstance (extractInstanceID cfg.instanceId)).instanceData = none then
        some (Except.error (resourceInstanceErrMsg
          (errStr (api.getResourceInstance (extractInstanceID cfg.instanceId)).err)
          (api.getResourceInstance (extractInstanceID cfg.instanceId)).resp))
      else
        match api.kmsEndpointURL cfg.endpointType
            ((api.getResourceInstance (extractInstanceID cfg.instanceId)).instanceData.getD "") with
        | Except.error e => some (Except.error e)
        | Except.ok _ => kmsKeyBranches api cfg fuel (extractInstanceID cfg.instanceId)

/-! ## `dataSourceIBMPIStorageTypeCapacityRead`
(`ibm/service/power/data_source_ibm_pi_storage_type_capacity.go`)

The `models.MaximumStorageAllocation` and `models.StoragePoolCapacity`
structs of the `power-go-client` SDK declare their required fields as
pointers (`MaxAllocationSize *int64`, `StoragePool *string`,
`StorageType *string`) while the remaining pool fields are plain values;
the pointers are modelled as `Option`, a slice entry itself is modelled as
present.  Dereferencing a nil pointer is the explicit outcome
`PowerErr.nilDeref`.
-/

/-- `models.MaximumStorageAllocation` of the power SDK. -/
structure MaximumStorageAllocation where
  maxAllocationSize : Option Int
  storagePool : Option String
  storageType : Option String
deriving DecidableEq, Repr

/-- `models.StoragePoolCapacity` of the power SDK (the fields the handler
reads). -/
structure StoragePoolCapacity where
  maxAllocationSize : Option Int
  poolName : String
  storageType : String
  totalCapacity : Int
deriving DecidableEq, Repr

/-- `models.StorageTypeCapacity`, the response of
`client.GetStorageTypeCapacity`. -/
structure StorageTypeCapacity where
  maximumStorageAllocation : Option MaximumStorageAllocation
  storagePoolsCapacity : List StoragePoolCapacity
deriving DecidableEq, Repr

/-- How `dataSourceIBMPIStorageTypeCapacityRead` can fail: `fromErr s` is
the diagnostic `diag.FromErr(err)` builds, whose summary is exactly the
error's own message `s`; `nilDeref` is the run-time panic of dereferencing
a nil pointer. -/
inductive PowerErr where
  | fromErr (summary : String)
  | nilDeref
deriving DecidableEq, Repr

/-- The two external calls of the handler: obtaining the session
(line 82) and `GetStorageTypeCapacity` (line 91). -/
structure PowerApi where
  sessionErr : Option String
  getStorageTypeCapacity : String → Except String StorageTypeCapacity

/-- The flat `maximum_storage_allocation` attribute value.  The handler
passes the map through `flex.Flatten` (repository code outside `src/`);
modelled from the spec as the evident flat shape, which no claim
inspects. -/
structure MsaAttr where
  maxAllocationSize : Int
  storagePool : String
  storageType : String
deriving DecidableEq, Repr

/-- One entry of the `storage_pools_capacity` list attribute. -/
structure PoolAttr where
  maxAllocationSize : Int
  poolName : String
  storageType : String
  totalCapacity : Int
deriving DecidableEq, Repr

/-- The attributes the handler writes. -/
structure PowerState where
  id : Option String
  maximumStorageAllocation : Option MsaAttr
  storagePoolsCapacity : Option (List PoolAttr)
deriving DecidableEq, Repr

/-- Lines 100-106: the `data` map built from `*msa.MaxAllocationSize`,
`*msa.StoragePool` and `*msa.StorageType`; any nil pointer among them is
the panic. -/
def flattenMsa (msa : MaximumStorageAllocation) : Except PowerErr MsaAttr :=
  match msa.maxAllocationSize, msa.storagePool, msa.storageType with
  | some a, some p, some t => Except.ok { maxAllocationSize := a, storagePool := p, storageType := t }
  | _, _, _ => Except.error PowerErr.nilDeref

/-- Lines 109-118: the `result` slice accumulated over
`stc.StoragePoolsCapacity`, dereferencing `*sp.MaxAllocationSize` for each
entry. -/
def flattenPools : List StoragePoolCapacity → Except PowerErr (List PoolAttr)
  | [] => Except.ok []
  | sp :: rest =>
    match sp.maxAllocationSize with
    | none => Except.error PowerErr.nilDeref
    | some n =>
      match flattenPools rest with
      | Except.error e => Except.error e
      | Except.ok tail =>
        Except.ok ({ maxAllocationSize := n
                     poolName := sp.poolName
                     storageType := sp.storageType
                     totalCapacity := sp.totalCapacity } :: tail)

/-- The whole of `dataSourceIBMPIStorageTypeCapacityRead` (lines 81-122).
`d.SetId(fmt.Sprintf("%s/%s", cloudInstanceID, storageType))` runs before
the flattening, so the final state records it on success. -/
def powerRead (api : PowerApi) (cloudInstanceID storageType : String) :
    Except PowerErr PowerState :=
  match api.sessionErr with
  | some e => Except.error (PowerErr.fromErr e)
  | none =>
    match api.getStorageTypeCapacity storageType with
    | Except.error e => Except.error (PowerErr.fromErr e)
    | Except.ok stc =>
      let theId := cloudInstanceID ++ "/" ++ storageType
      match stc.maximumStorageAllocation with
      | some msa =>
        match flattenMsa msa with
        | Except.error e => Except.error e
        | Except.ok m =>
          match flattenPools stc.storagePoolsCapacity with
          | Except.error e => Except.error e
          | Except.ok pools =>
            Except.ok { id := some theId
                        maximumStorageAllocation := some m
                        storagePoolsCapacity := some pools }
      | none =>
        match flattenPools stc.storagePoolsCapacity with
        | Except.error e => Except.error e
        | Except.ok pools =>
          Except.ok { id := some theId
                      maximumStorageAllocation := none
                      storagePoolsCapacity := some pools }

/-- The field-by-field correspondence between a storage pool of the SDK
response and the attribute entry built for it (lines 111-116). -/
def poolRel (sp : StoragePoolCapacity) (a : PoolAttr) : Prop :=
  sp.maxAllocationSize = some a.maxAllocationSize ∧
  a.poolName = sp.poolName ∧
  a.storageType = sp.storageType ∧
  a.totalCapacity = sp.totalCapacity

/-! ## `dataSourceIbmProjectConfigRead` and its flattening helpers

The project data source (second part of the file, lines 362-1385 of the
concatenated source).  `flex.TerraformErrorf(err, msg, resource,
operation)` is repository code outside `src/`; modelled from the spec
("errors are the SDK's own error values, wrapped with a short contextual
message and returned as provider diagnostics") as the structured
diagnostic `ProjErr.tfErr resource operation msg`.  The nested block
attributes whose flattenings are total field copies irrelevant to every
claim (`project`, `schematics`, `definition`, `approved_version`,
`deployed_version`) are omitted from the response model; the control flow
around them cannot fail (their `ToMap` helpers in the source always return
a nil error).
-/

/-- An opaque JSON value, the `interface{}` payload of
`projectv1.OutputValue.Value`. -/
structure JsonVal where
  raw : String
deriving DecidableEq, Repr

/-- `projectv1.OutputValue`: `Name` is a pointer to the variable name,
`Description` an optional pointer and `Value` an arbitrary JSON payload. -/
structure OutputValue where
  name : Option String
  description : Option String
  value : Option JsonVal
deriving DecidableEq, Repr

/-- The map built by `dataSourceIbmProjectConfigOutputValueToMap`: a field
is `none` when the corresponding key was never assigned. -/
structure OutputMap where
  name : Option String
  description : Option String
  value_json : Option String
  value : Option String
deriving DecidableEq, Repr

/-- The run-time panic of the project handler: the type assertion
`f.(map[string]interface{})` of line 1107 applied to the nil interface
left behind by the failed `json.Unmarshal` of a failed `json.Marshal`'s
nil output. -/
inductive ProjPanic where
  | nilTypeAssertion
deriving DecidableEq, Repr

/-- `dataSourceIbmProjectConfigOutputValueToMap` (lines 1094-1112).
`marshal` is Go's `json.Marshal` and `stringifyF` the repository helper
`stringify` (outside `src/`; modelled from the spec as an uninterpreted
stringification), both abstracted as parameters.  When `json.Marshal`
fails, the source feeds its nil output to `json.Unmarshal`, which leaves
`f` nil, and the following type assertion panics before anything is
returned. -/
def outputValueToMap (marshal : JsonVal → Except String String)
    (stringifyF : JsonVal → String) (model : OutputValue) :
    Except ProjPanic OutputMap :=
  let m0 : OutputMap :=
    { name := model.name
      description := model.description
      value_json := none
      value := none }
  match model.value with
  | none => Except.ok m0
  | some v =>
    match marshal v with
    | Except.ok _ => Except.ok { m0 with value_json := some (stringifyF v) }
    | Except.error _ => Except.error ProjPanic.nilTypeAssertion

/-- The `outputs` loop of lines 970-980, collecting the maps in order and
propagating the first abnormal outcome. -/
def outputsToMaps (marshal : JsonVal → Except String String)
    (stringifyF : JsonVal → String) :
    List OutputValue → Except ProjPanic (List OutputMap)
  | [] => Except.ok []
  | m :: rest =>
    match outputValueToMap marshal stringifyF m with
    | Except.error p => Except.error p
    | Except.ok mm =>
      match outputsToMaps marshal stringifyF rest with
      | Except.error p => Except.error p
      | Except.ok tail => Except.ok (mm :: tail)

/-- `projectv1.ProjectConfigNeedsAttentionState` (the fields copied by
lines 1074-1091). -/
structure NeedsAttentionState where
  eventId : Option String
  event : Option String
  severity : Option String
  actionUrl : Option String
  target : Option String
  triggeredBy : Option String
  timestamp : Option String
deriving DecidableEq, Repr

/-- The map built by
`dataSourceIbmProjectConfigProjectConfigNeedsAttentionStateToMap`:
`event_id`, `event` and `timestamp` are stored unconditionally, the other
keys only when non-nil (for those three a stored nil pointer and an unset
key coincide in this model). -/
structure NasMap where
  event_id : Option String
  event : Option String
  severity : Option String
  action_url : Option String
  target : Option String
  triggered_by : Option String
  timestamp : Option String
deriving DecidableEq, Repr

/-- Lines 1074-1091, a total field copy (the Go function always returns a
nil error). -/
def needsAttentionStateToMap (model : NeedsAttentionState) : NasMap :=
  { event_id := model.eventId
    event := model.event
    severity := model.severity
    action_url := model.actionUrl
    target := model.target
    triggered_by := model.triggeredBy
    timestamp := model.timestamp }

/-- Modelled from the spec: `flex.IntValue` (repository code outside
`src/`) converts a possibly-nil `*int64` into an `int`, zero for nil. -/
def intValue (v : Option Int) : Int :=
  v.getD 0

/-- Modelled from the spec: `flex.DateTimeToString` (repository code
outside `src/`) renders a possibly-nil timestamp, empty for nil. -/
def dateTimeToString (v : Option String) : String :=
  v.getD ""

/-- The fields of `projectv1.ProjectConfig` consumed by the read handler
(block attributes whose flattenings no claim concerns are omitted, see the
section comment). -/
structure ProjectConfig where
  version : Option Int
  isDraft : Option Bool
  needsAttentionState : List NeedsAttentionState
  createdAt : Option String
  modifiedAt : Option String
  lastSavedAt : Option String
  outputs : List OutputValue
  state : Option String
  updateAvailable : Option Bool
  href : Option String
deriving DecidableEq, Repr

/-- The two external calls of `dataSourceIbmProjectConfigRead`: obtaining
the client (line 908) and `GetConfigWithContext` (line 920). -/
structure ProjectApi where
  clientErr : Option String
  getConfig : String → String → Except String ProjectConfig

/-- How the project read ends abnormally: `tfErr resource op msg` models
the diagnostic of `flex.TerraformErrorf(err, msg, resource, op).GetDiag()`,
`panicked` the run-time panic escaping from the outputs flattening. -/
inductive ProjErr where
  | tfErr (resource : String) (operation : String) (msg : String)
  | panicked (p : ProjPanic)
deriving DecidableEq, Repr

/-- The attributes `dataSourceIbmProjectConfigRead` writes (those carried
by the response model). -/
structure ProjState where
  id : Option String
  version : Option Int
  isDraft : Option Bool
  needsAttentionState : Option (List NasMap)
  createdAt : Option String
  modifiedAt : Option String
  lastSavedAt : Option String
  outputs : Option (List OutputMap)
  state : Option String
  updateAvailable : Option Bool
  href : Option String
deriving DecidableEq, Repr

/-- The whole of `dataSourceIbmProjectConfigRead` (lines 907-1072).
`d.SetId` (line 927) runs right after a successful `GetConfigWithContext`;
the subsequent `d.Set` calls on the declared schema cannot fail and none
of the remaining `ToMap` helpers the model carries returns a non-nil
error, so the only abnormal outcomes after that point are the panics of
the outputs flattening. -/
def projRead (api : ProjectApi) (marshal : JsonVal → Except String String)
    (stringifyF : JsonVal → String) (projectId configId : String) :
    Except ProjErr ProjState :=
  match api.clientErr with
  | some e => Except.error (ProjErr.tfErr "(Data) ibm_project_config" "read" e)
  | none =>
    match api.getConfig projectId configId with
    | Except.error e =>
      Except.error (ProjErr.tfErr "(Data) ibm_project_config" "read"
        ("GetConfigWithContext failed: " ++ e))
    | Except.ok pc =>
      let theId := projectId ++ "/" ++ configId
      match outputsToMaps marshal stringifyF pc.outputs with
      | Except.error p => Except.error (ProjErr.panicked p)
      | Except.ok outs =>
        Except.ok
          { id := some theId
            version := some (intValue pc.version)
            isDraft := pc.isDraft
            needsAttentionState := some (pc.needsAttentionState.map needsAttentionStateToMap)
            createdAt := some (dateTimeToString pc.createdAt)
            modifiedAt := some (dateTimeToString pc.modifiedAt)
            lastSavedAt := some (dateTimeToString pc.lastSavedAt)
            outputs := some outs
            state := pc.state
            updateAvailable := pc.updateAvailable
            href := pc.href }

/-! ## The `ibm_kms_key` data-source schema (lines 20-177)

Only the top-level attributes are carried; the nested `Elem` schema of the
computed `keys` list is not consulted by any claim.
-/

/-- A Terraform schema field as declared in the source: its type tag, the
required/optional/computed flags, the `ExactlyOneOf` group, the allowed
values when a `validate.ValidateAllowedStringValues` validator is
attached, and the declared default. -/
structure SchemaField where
  fieldType : String
  requiredFlag : Bool
  optionalFlag : Bool
  computedFlag : Bool
  exactlyOneOf : List String
  allowedValues : Option (List String)
  defaultVal : Option String
deriving DecidableEq, Repr

/-- A schema field with every flag off, to be updated per declaration. -/
def blankField (t : String) : SchemaField :=
  { fieldType := t
    requiredFlag := false
    optionalFlag := false
    computedFlag := false
    exactlyOneOf := []
    allowedValues := none
    defaultVal := none }

/-- The top-level schema map of `DataSourceIBMKMSkey` (lines 24-175). -/
def kmsKeySchema : List (String × SchemaField) :=
  [ ("instance_id", { blankField "TypeString" with requiredFlag := true }),
    ("limit", { blankField "TypeInt" with optionalFlag := true }),
    ("key_id", { blankField "TypeString" with
                 optionalFlag := true
                 exactlyOneOf := ["alias", "key_name", "key_id"] }),
    ("key_name", { blankField "TypeString" with
                   optionalFlag := true
                   exactlyOneOf := ["alias", "key_name", "key_id"] }),
    ("alias", { blankField "TypeString" with
                optionalFlag := true
                exactlyOneOf := ["alias", "key_name", "key_id"] }),
    ("endpoint_type", { blankField "TypeString" with
                        optionalFlag := true
                        allowedValues := some ["public", "private"]
                        defaultVal := some "public" }),
    ("keys", { blankField "TypeList" with computedFlag := true }) ]

/-- Looking a field up in the schema map. -/
def lookupField (name : String) : Option SchemaField :=
  (kmsKeySchema.find? (fun p => p.1 == name)).map Prod.snd

/-- Modelled from the spec: `validate.ValidateAllowedStringValues`
(repository code outside `src/`) accepts exactly the strings of the given
list. -/
def validateAllowedStringValues (allowed : List String) (v : String) : Bool :=
  allowed.any (fun a => a == v)

/-- The `ExactlyOneOf` constraint the Terraform plugin SDK enforces from
the schema: for every declared group, exactly one of its fields may be
configured.  `isSet` tells which attributes the configuration sets. -/
def exactlyOneOfOK (schemaMap : List (String × SchemaField)) (isSet : String → Bool) : Bool :=
  schemaMap.all fun p =>
    p.2.exactlyOneOf.isEmpty || (p.2.exactlyOneOf.filter isSet).length == 1

/-- The effective value of `endpoint_type`: the configured string, or the
schema's declared default when the attribute is omitted. -/
def effectiveEndpointType (v : Option String) : String :=
  match v with
  | some s => s
  | none => (((lookupField "endpoint_type").map SchemaField.defaultVal).getD none).getD ""

/-! ## Wrapping predicate for error diagnostics -/

/-- `whole` wraps the SDK error `sdk` together with a contextual message:
the SDK message occurs inside `whole` with at least a non-empty prefix of
added context around it. -/
def wrapsWithContext (whole sdk : String) : Prop :=
  ∃ p q, whole = p ++ sdk ++ q ∧ p ≠ ""

/-! ## Concrete fixtures used by the witness theorems -/

/-- A benign `GetKeys` oracle: every page is empty. -/
def gkEmpty : Int → Int → Except String KpKeys :=
  fun _ _ => Except.ok { metadata := { numberOfKeys := 0 }, keys := [] }

/-- A sample key. -/
def kSample : KpKey :=
  { id := "k1"
    name := "my-key"
    crn := "crn:k1"
    extractable := false
    aliases := ["a1"]
    keyRingID := "default" }

/-- A second sample key with a different name. -/
def kOther : KpKey :=
  { id := "k2"
    name := "other-key"
    crn := "crn:k2"
    extractable := true
    aliases := []
    keyRingID := "default" }

/-- A `GetKeys` oracle returning one page holding the two sample keys. -/
def gkTwoKeys : Int → Int → Except String KpKeys :=
  fun _ _ => Except.ok { metadata := { numberOfKeys := 2 }, keys := [kSample, kOther] }

/-- A fully successful KMS oracle assignment over `gkTwoKeys`. -/
def kmsApiOk : KmsApi :=
  { kmAPIErr := none
    rcErr := none
    getResourceInstance := fun _ => { err := none, instanceData := some "ext", resp := "200" }
    kmsEndpointURL := fun _ _ => Except.ok "https://kms.example"
    getKeys := gkTwoKeys
    getKey := fun _ => Except.ok kSample
    getPolicies := fun _ => Except.ok [] }

/-- A sample configuration querying `key_name` with the default limit. -/
def kmsCfgName : KmsConfig :=
  { instanceId := "guid-1"
    limit := 0
    keyName := "my-key"
    keyId := ""
    aliasName := ""
    endpointType := "public" }

/-- The same configuration with an explicit positive limit. -/
def kmsCfgLimit (n : Int) : KmsConfig :=
  { kmsCfgName with limit := n }

/-- A successful power oracle: one storage pool and a maximum storage
allocation with all pointers present. -/
def powerApiOk : PowerApi :=
  { sessionErr := none
    getStorageTypeCapacity := fun _ =>
      Except.ok
        { maximumStorageAllocation := some
            { maxAllocationSize := some 100, storagePool := "p1", storageType := "tier1" }
          storagePoolsCapacity :=
            [ { maxAllocationSize := some 50, poolName := "p1"
                storageType := "tier1", totalCapacity := 500 } ] } }

/-- A power oracle whose response carries a non-nil
`MaximumStorageAllocation` with nil inner pointers. -/
def powerApiNilInner : PowerApi :=
  { sessionErr := none
    getStorageTypeCapacity := fun _ =>
      Except.ok
        { maximumStorageAllocation := some
            { maxAllocationSize := none, storagePool := none, storageType := none }
          storagePoolsCapacity := [] } }

/-- A power oracle whose `GetStorageTypeCapacity` fails with the bare
message `boom`. -/
def powerApiBoom : PowerApi :=
  { sessionErr := none
    getStorageTypeCapacity := fun _ => Except.error "boom" }

/-- A sample project configuration response with one output value. -/
def pcSample : ProjectConfig :=
  { version := some 3
    isDraft := some false
    needsAttentionState := []
    createdAt := some "2024-01-01T00:00:00Z"
    modifiedAt := none
    lastSavedAt := none
    outputs := [ { name := some "out1", description := none, value := some { raw := "42" } } ]
    state := some "deployed"
    updateAvailable := some false
    href := some "https://projects.example/c1" }

/-- A successful project oracle over `pcSample`. -/
def projApiOk : ProjectApi :=
  { clientErr := none
    getConfig := fun _ _ => Except.ok pcSample }

/-- A project oracle whose `GetConfigWithContext` fails. -/
def projApiFail : ProjectApi :=
  { clientErr := none
    getConfig := fun _ _ => Except.error "config gone" }

/-- A `json.Marshal` model that succeeds on everything. -/
def marshalOk : JsonVal → Except String String :=
  fun v => Except.ok v.raw

/-- A `json.Marshal` model that fails on everything (as Go's does on
values such as NaN floats or channels). -/
def marshalFail : JsonVal → Except String String :=
  fun _ => Except.error "json: unsupported value"

/-- A concrete stringification. -/
def stringify0 : JsonVal → String :=
  fun v => v.raw

/-- The identifying fields of a `keys`-attribute entry, for comparing the
computed attribute with the fetched keys. -/
def keyInstanceProj (e : KeyInstance) : String × String × String × Bool × List String × String :=
  (e.id, e.name, e.crn, e.standardKey, e.aliases, e.keyRingId)

/-- The corresponding fields of a fetched `kp.Key`. -/
def kpKeyProj (k : KpKey) : String × String × String × Bool × List String × String :=
  (k.id, k.name, k.crn, k.extractable, k.aliases, k.keyRingID)

/-! # Theorems -/

/-! ## Facts about `splitOnChar` -/

theorem splitOnChar_ne_nil (c : Char) (s : List Char) : splitOnChar c s ≠ [] := by
  induction s with
  | nil => simp [splitOnChar]
  | cons x xs ih =>
    simp only [splitOnChar]
    split
    · simp
    · cases h : splitOnChar c xs with
      | nil => simp
      | cons hh tt => simp

theorem not_mem_of_mem_splitOnChar (c : Char) (s : List Char) :
    ∀ part ∈ splitOnChar c s, c ∉ part := by
  induction s with
  | nil =>
    intro part hp
    simp only [splitOnChar, List.mem_singleton] at hp
    simp [hp]
  | cons x xs ih =>
    intro part hp
    simp only [splitOnChar] at hp
    by_cases hx : x = c
    · rw [if_pos hx] at hp
      rcases List.mem_cons.mp hp with hp | hp
      · simp [hp]
      · exact ih part hp
    · rw [if_neg hx] at hp
      cases h : splitOnChar c xs with
      | nil => exact absurd h (splitOnChar_ne_nil c xs)
      | cons hh tt =>
        rw [h] at hp
        rcases List.mem_cons.mp hp with hp | hp
        · subst hp
          intro hc
          rcases List.mem_cons.mp hc with h1 | h1
          · exact hx h1.symm
          · exact ih hh (by rw [h]; exact List.mem_cons_self hh tt) h1
        · exact ih part (by rw [h]; exact List.mem_cons_of_mem hh hp)

theorem mem_of_one_lt_length_splitOnChar (c : Char) (s : List Char)
    (h : 1 < (splitOnChar c s).length) : c ∈ s := by
  induction s with
  | nil => simp [splitOnChar] at h
  | cons x xs ih =>
    by_cases hx : x = c
    · simp [hx]
    · simp only [splitOnChar, if_neg hx] at h
      cases hsp : splitOnChar c xs with
      | nil => exact absurd hsp (splitOnChar_ne_nil c xs)
      | cons hh tt =>
        rw [hsp] at h
        simp only [List.length_cons] at h
        refine List.mem_cons_of_mem x (ih ?_)
        rw [hsp]
        simpa using h

/-! ## Facts about the pagination loop -/

theorem getKeysLoop_spin (g : Int → Int → Except String KpKeys) (L off : Int)
    (hoff : ¬ off < L) : ∀ fuel : Nat, getKeysLoop g L fuel off = none := by
  intro fuel
  induction fuel with
  | zero => rfl
  | succ n ih => simp only [getKeysLoop, if_neg hoff]; exact ih

theorem getKeysLoop_isSome (g : Int → Int → Except String KpKeys) (L : Int) :
    ∀ (fuel : Nat) (off : Int), off < L → (L - off).toNat ≤ 200 * fuel →
    (getKeysLoop g L fuel off).isSome := by
  intro fuel
  induction fuel with
  | zero => intro off hoff hb; omega
  | succ n ih =>
    intro off hoff hb
    simp only [getKeysLoop, if_pos hoff]
    by_cases hsmall : L - off < 200
    · rw [if_pos hsmall]
      cases g (L - off) off <;> simp
    · rw [if_neg hsmall]
      cases g 200 off with
      | error e => simp
      | ok ks =>
        simp only
        by_cases hbreak : ks.metadata.numberOfKeys < 200 ∨ off + 200 = L
        · rw [if_pos hbreak]; simp
        · rw [if_neg hbreak]
          have hlt : off + 200 < L := by omega
          have hrec := ih (off + 200) hlt (by omega)
          cases hr : getKeysLoop g L n (off + 200) with
          | none => rw [hr] at hrec; simp at hrec
          | some p =>
            obtain ⟨tr, res⟩ := p
            cases res <;> simp

theorem getKeysLoop_invariant (g : Int → Int → Except String KpKeys) (L : Int) :
    ∀ (fuel : Nat) (off : Int) (tr : List GKCall) (res : Except String (List KpKey)),
      off < L →
      getKeysLoop g L fuel off = some (tr, res) →
      tr ≠ [] ∧
      (∀ c ∈ tr, c.size = min 200 (L - c.offset) ∧ c.result = g c.size c.offset) ∧
      (tr.map GKCall.size).sum ≤ L - off ∧
      tr.map GKCall.offset = (List.range tr.length).map (fun i : Nat => off + 200 * (i : Int)) ∧
      (∀ c ∈ tr.dropLast, ∃ ks, c.result = Except.ok ks ∧
        200 ≤ ks.metadata.numberOfKeys ∧ c.offset + 200 < L) ∧
      (∀ e, res = Except.error e →
        ∃ c ∈ tr, ∃ m, c.result = Except.error m ∧ e = getKeysErrMsg m) := by
  intro fuel
  induction fuel with
  | zero => intro off tr res hoff h; simp [getKeysLoop] at h
  | succ n ih =>
    intro off tr res hoff h
    simp only [getKeysLoop, if_pos hoff] at h
    by_cases hsmall : L - off < 200
    · rw [if_pos hsmall] at h
      cases hg : g (L - off) off with
      | error e =>
        rw [hg] at h
        simp only [Option.some.injEq, Prod.mk.injEq] at h
        obtain ⟨htr, hres⟩ := h
        subst htr; subst hres
        refine ⟨by simp, ?_, ?_, ?_, ?_, ?_⟩
        · intro c hc
          simp only [List.mem_singleton] at hc
          subst hc
          exact ⟨(min_eq_right (le_of_lt hsmall)).symm, hg.symm⟩
        · simp
        · norm_num [List.range_succ]
        · simp [List.dropLast]
        · intro e2 he2
          refine ⟨⟨L - off, off, Except.error e⟩, by simp, e, rfl, ?_⟩
          simpa using he2.symm
      | ok ks =>
        rw [hg] at h
        simp only [Option.some.injEq, Prod.mk.injEq] at h
        obtain ⟨htr, hres⟩ := h
        subst htr; subst hres
        refine ⟨by simp, ?_, ?_, ?_, ?_, ?_⟩
        · intro c hc
          simp only [List.mem_singleton] at hc
          subst hc
          exact ⟨(min_eq_right (le_of_lt hsmall)).symm, hg.symm⟩
        · simp
        · norm_num [List.range_succ]
        · simp [List.dropLast]
        · intro e2 he2; simp at he2
    · rw [if_neg hsmall] at h
      cases hg : g 200 off with
      | error e =>
        rw [hg] at h
        simp only [Option.some.injEq, Prod.mk.injEq] at h
        obtain ⟨htr, hres⟩ := h
        subst htr; subst hres
        refine ⟨by simp, ?_, ?_, ?_, ?_, ?_⟩
        · intro c hc
          simp only [List.mem_singleton] at hc
          subst hc
          refine ⟨?_, hg.symm⟩
          show (200 : Int) = min 200 (L - off)
          have h200 : (200 : Int) ≤ L - off := by omega
          rw [min_eq_left h200]
        · simp only [List.map_cons, List.map_nil, List.sum_cons, List.sum_nil]
          omega
        · norm_num [List.range_succ]
        · simp [List.dropLast]
        · intro e2 he2
          refine ⟨⟨200, off, Except.error e⟩, by simp, e, rfl, ?_⟩
          simpa using he2.symm
      | ok ks =>
        rw [hg] at h
        dsimp only at h
        by_cases hbreak : ks.metadata.numberOfKeys < 200 ∨ off + 200 = L
        · rw [if_pos hbreak] at h
          simp only [Option.some.injEq, Prod.mk.injEq] at h
          obtain ⟨htr, hres⟩ := h
          subst htr; subst hres
          refine ⟨by simp, ?_, ?_, ?_, ?_, ?_⟩
          · intro c hc
            simp only [List.mem_singleton] at hc
            subst hc
            refine ⟨?_, hg.symm⟩
            show (200 : Int) = min 200 (L - off)
            have h200 : (200 : Int) ≤ L - off := by omega
            rw [min_eq_left h200]
          · simp only [List.map_cons, List.map_nil, List.sum_cons, List.sum_nil]
            omega
          · norm_num [List.range_succ]
          · simp [List.dropLast]
          · intro e2 he2; simp at he2
        · rw [if_neg hbreak] at h
          push_neg at hbreak
          obtain ⟨hnk, hne⟩ := hbreak
          have hlt : off + 200 < L := by omega
          cases hr : getKeysLoop g L n (off + 200) with
          | none => rw [hr] at h; simp at h
          | some p =>
            obtain ⟨tr', res'⟩ := p
            have IH := ih (off + 200) tr' res' hlt hr
            obtain ⟨ihne, ihcalls, ihsum, ihoffs, ihdrop, iherr⟩ := IH
            rw [hr] at h
            have hfun : ((fun i : Nat => off + 200 * (i : Int)) ∘ Nat.succ) =
                (fun i : Nat => (off + 200) + 200 * (i : Int)) := by
              funext i
              simp only [Function.comp]
              push_cast
              ring
            cases res' with
            | error e =>
              simp only [Option.some.injEq, Prod.mk.injEq] at h
              obtain ⟨htr, hres⟩ := h
              subst htr; subst hres
              refine ⟨by simp, ?_, ?_, ?_, ?_, ?_⟩
              · intro c hc
                rcases List.mem_cons.mp hc with hc | hc
                · subst hc
                  refine ⟨?_, hg.symm⟩
                  show (200 : Int) = min 200 (L - off)
                  have h200 : (200 : Int) ≤ L - off := by omega
                  rw [min_eq_left h200]
                · exact ihcalls c hc
              · simp only [List.map_cons, List.sum_cons]
                omega
              · simp only [List.map_cons, List.length_cons, List.range_succ_eq_map,
                  List.map_map, hfun, ihoffs]
                norm_num
              · rw [List.dropLast_cons_of_ne_nil ihne]
                intro c hc
                rcases List.mem_cons.mp hc with hc | hc
                · subst hc
                  exact ⟨ks, rfl, by omega, hlt⟩
                · exact ihdrop c hc
              · intro e2 he2
                obtain ⟨c, hc, m, hm, hem⟩ := iherr e2 he2
                exact ⟨c, List.mem_cons_of_mem _ hc, m, hm, hem⟩
            | ok rest =>
              simp only [Option.some.injEq, Prod.mk.injEq] at h
              obtain ⟨htr, hres⟩ := h
              subst htr; subst hres
              refine ⟨by simp, ?_, ?_, ?_, ?_, ?_⟩
              · intro c hc
                rcases List.mem_cons.mp hc with hc | hc
                · subst hc
                  refine ⟨?_, hg.symm⟩
                  show (200 : Int) = min 200 (L - off)
                  have h200 : (200 : Int) ≤ L - off := by omega
                  rw [min_eq_left h200]
                · exact ihcalls c hc
              · simp only [List.map_cons, List.sum_cons]
                omega
              · simp only [List.map_cons, List.length_cons, List.range_succ_eq_map,
                  List.map_map, hfun, ihoffs]
                norm_num
              · rw [List.dropLast_cons_of_ne_nil ihne]
                intro c hc
                rcases List.mem_cons.mp hc with hc | hc
                · subst hc
                  exact ⟨ks, rfl, by omega, hlt⟩
                · exact ihdrop c hc
              · intro e2 he2; simp at he2

/-! ## Facts about the per-key flattening -/

theorem buildKeyMaps_ok_proj (gp : String → Except String (List KpPolicy)) :
    ∀ (ks : List KpKey) (l : List KeyInstance), buildKeyMaps gp ks = Except.ok l →
      l.map keyInstanceProj = ks.map kpKeyProj := by
  intro ks
  induction ks with
  | nil =>
    intro l h
    simp only [buildKeyMaps, Except.ok.injEq] at h
    simp [← h]
  | cons k rest ih =>
    intro l h
    simp only [buildKeyMaps] at h
    cases hg : gp k.id with
    | error e => rw [hg] at h; simp at h
    | ok pols =>
      rw [hg] at h
      cases hb : buildKeyMaps gp rest with
      | error e => rw [hb] at h; simp at h
      | ok tail =>
        rw [hb] at h
        simp only [Except.ok.injEq] at h
        subst h
        simp only [List.map_cons, ih tail hb, List.cons.injEq, and_true]
        simp [keyInstanceProj, kpKeyProj, mkKeyInstance]

theorem buildKeyMaps_error (gp : String → Except String (List KpPolicy)) :
    ∀ (ks : List KpKey) (e : String), buildKeyMaps gp ks = Except.error e →
      ∃ k ∈ ks, ∃ m, gp k.id = Except.error m ∧ e = policiesErrMsg m := by
  intro ks
  induction ks with
  | nil => intro e h; simp [buildKeyMaps] at h
  | cons k rest ih =>
    intro e h
    simp only [buildKeyMaps] at h
    cases hg : gp k.id with
    | error m =>
      rw [hg] at h
      simp only [Except.error.injEq] at h
      exact ⟨k, List.mem_cons_self k rest, m, hg, h.symm⟩
    | ok pols =>
      rw [hg] at h
      cases hb : buildKeyMaps gp rest with
      | error e2 =>
        rw [hb] at h
        simp only [Except.error.injEq] at h
        subst h
        obtain ⟨k2, hk2, m, hm, hem⟩ := ih e2 hb
        exact ⟨k2, List.mem_cons_of_mem k hk2, m, hm, hem⟩
      | ok tail => rw [hb] at h; simp at h

/-! ## Facts about the power flattening -/

theorem flattenPools_ok_rel :
    ∀ (pools : List StoragePoolCapacity) (l : List PoolAttr),
      flattenPools pools = Except.ok l → List.Forall₂ poolRel pools l := by
  intro pools
  induction pools with
  | nil =>
    intro l h
    simp only [flattenPools, Except.ok.injEq] at h
    subst h
    exact List.Forall₂.nil
  | cons sp rest ih =>
    intro l h
    simp only [flattenPools] at h
    cases hm : sp.maxAllocationSize with
    | none => rw [hm] at h; simp at h
    | some n =>
      rw [hm] at h
      cases hr : flattenPools rest with
      | error e => rw [hr] at h; simp at h
      | ok tail =>
        rw [hr] at h
        simp only [Except.ok.injEq] at h
        subst h
        refine List.Forall₂.cons ?_ (ih tail hr)
        exact ⟨hm, rfl, rfl, rfl⟩

theorem flattenPools_isOk (pools : List StoragePoolCapacity)
    (h : ∀ sp ∈ pools, sp.maxAllocationSize.isSome) :
    ∃ l, flattenPools pools = Except.ok l := by
  induction pools with
  | nil => exact ⟨[], rfl⟩
  | cons sp rest ih =>
    have hsp := h sp (List.mem_cons_self sp rest)
    obtain ⟨n, hn⟩ := Option.isSome_iff_exists.mp hsp
    obtain ⟨tail, htail⟩ := ih (fun x hx => h x (List.mem_cons_of_mem sp hx))
    refine ⟨{ maxAllocationSize := n, poolName := sp.poolName,
              storageType := sp.storageType, totalCapacity := sp.totalCapacity } :: tail, ?_⟩
    simp only [flattenPools, hn, htail]

/-! ## Facts about the CRN extraction -/

theorem crnSegments_length (s : String) :
    (crnSegments s).length = (splitOnChar ':' s.data).length := by
  simp [crnSegments]

theorem extractInstanceID_of_le (s : String) (h : (crnSegments s).length ≤ 3) :
    extractInstanceID s = s := by
  unfold extractInstanceID
  rw [if_neg (by omega)]

theorem extractInstanceID_of_lt (s : String) (h : 3 < (crnSegments s).length) :
    extractInstanceID s = (crnSegments s).getD ((crnSegments s).length - 3) "" := by
  unfold extractInstanceID
  rw [if_pos h]

theorem extractInstanceID_ne (s : String) (h : 3 < (crnSegments s).length) :
    extractInstanceID s ≠ s := by
  rw [extractInstanceID_of_lt s h]
  intro heq
  have hi : (crnSegments s).length - 3 < (crnSegments s).length := by omega
  have hmem : (crnSegments s).getD ((crnSegments s).length - 3) "" ∈ crnSegments s := by
    rw [List.getD_eq_getElem _ _ hi]
    exact List.getElem_mem hi
  have hmem2 : s ∈ (splitOnChar ':' s.data).map String.mk := by
    rw [heq] at hmem
    simpa [crnSegments] using hmem
  obtain ⟨part, hpart, hmk⟩ := List.mem_map.mp hmem2
  have hnc := not_mem_of_mem_splitOnChar ':' s.data part hpart
  have hc : ':' ∈ s.data := by
    refine mem_of_one_lt_length_splitOnChar ':' s.data ?_
    have := crnSegments_length s
    omega
  cases s with
  | mk data =>
    injection hmk with hd
    subst hd
    exact hnc hc

/-! ## The state written by a successful KMS read -/

theorem kmsKeyBranches_ok_state (api : KmsApi) (cfg : KmsConfig) (fuel : Nat)
    (instanceID : String) (st : KmsState)
    (h : kmsKeyBranches api cfg fuel instanceID = some (Except.ok st)) :
    st.id = some instanceID ∧ st.keysAttr.isSome ∧ st.instanceIdAttr = some instanceID := by
  unfold kmsKeyBranches at h
  repeat' split at h
  all_goals try simp_all
  all_goals try (split at h <;> try simp_all)
  all_goals try (split at h <;> try simp_all)
  all_goals simp [← h]

theorem kmsRead_eq_branches (api : KmsApi) (cfg : KmsConfig) (fuel : Nat)
    (hk : api.kmAPIErr = none) (hr : api.rcErr = none)
    (he : (api.getResourceInstance (extractInstanceID cfg.instanceId)).err = none)
    (hd : (api.getResourceInstance (extractInstanceID cfg.instanceId)).instanceData ≠ none)
    (u : String)
    (hu : api.kmsEndpointURL cfg.endpointType
        ((api.getResourceInstance (extractInstanceID cfg.instanceId)).instanceData.getD "") =
      Except.ok u) :
    kmsRead api cfg fuel = kmsKeyBranches api cfg fuel (extractInstanceID cfg.instanceId) := by
  simp [kmsRead, hk, hr, he, hd, hu]

theorem kmsRead_ok_state (api : KmsApi) (cfg : KmsConfig) (fuel : Nat) (st : KmsState)
    (h : kmsRead api cfg fuel = some (Except.ok st)) :
    st.id = some (extractInstanceID cfg.instanceId) ∧
    st.keysAttr.isSome ∧
    st.instanceIdAttr = some (extractInstanceID cfg.instanceId) := by
  cases hk : api.kmAPIErr with
  | some e => simp [kmsRead, hk] at h
  | none =>
    cases hr : api.rcErr with
    | some e => simp [kmsRead, hk, hr] at h
    | none =>
      by_cases hgri : (api.getResourceInstance (extractInstanceID cfg.instanceId)).err ≠ none ∨
          (api.getResourceInstance (extractInstanceID cfg.instanceId)).instanceData = none
      · simp only [kmsRead, hk, hr, if_pos hgri] at h
        simp at h
      · simp only [kmsRead, hk, hr, if_neg hgri] at h
        cases hep : api.kmsEndpointURL cfg.endpointType
            ((api.getResourceInstance (extractInstanceID cfg.instanceId)).instanceData.getD "") with
        | error e => simp [hep] at h
        | ok u =>
          simp only [hep] at h
          exact kmsKeyBranches_ok_state api cfg fuel _ st h

/-! ## Propagation lemmas for the KMS branches -/

theorem kmsKeyBranches_fetch_error (api : KmsApi) (cfg : KmsConfig) (fuel : Nat)
    (instanceID : String) (hname : cfg.keyName ≠ "") (e : String)
    (hf : fetchTotalKeys api cfg fuel = some (Except.error e)) :
    kmsKeyBranches api cfg fuel instanceID = some (Except.error e) := by
  simp [kmsKeyBranches, hname, hf]

theorem kmsKeyBranches_no_keys (api : KmsApi) (cfg : KmsConfig) (fuel : Nat)
    (instanceID : String) (hname : cfg.keyName ≠ "")
    (hf : fetchTotalKeys api cfg fuel = some (Except.ok [])) :
    kmsKeyBranches api cfg fuel instanceID = some (Except.error (noKeysMsg instanceID)) := by
  simp [kmsKeyBranches, hname, hf]

theorem kmsKeyBranches_no_match (api : KmsApi) (cfg : KmsConfig) (fuel : Nat)
    (instanceID : String) (hname : cfg.keyName ≠ "") (tks : List KpKey)
    (hf : fetchTotalKeys api cfg fuel = some (Except.ok tks)) (htks : tks ≠ [])
    (hfil : tks.filter (fun k => k.name == cfg.keyName) = []) :
    kmsKeyBranches api cfg fuel instanceID =
      some (Except.error (noKeysWithNameMsg cfg.keyName instanceID)) := by
  simp only [kmsKeyBranches, hname, hf]
  simp [htks, hfil, hname]

theorem kmsKeyBranches_name_ok (api : KmsApi) (cfg : KmsConfig) (fuel : Nat)
    (instanceID : String) (hname : cfg.keyName ≠ "") (tks : List KpKey)
    (hf : fetchTotalKeys api cfg fuel = some (Except.ok tks)) (st : KmsState)
    (h : kmsKeyBranches api cfg fuel instanceID = some (Except.ok st)) :
    ∃ l, st.keysAttr = some l ∧
      l.map keyInstanceProj =
        (tks.filter (fun k => k.name == cfg.keyName)).map kpKeyProj := by
  by_cases htks : tks = []
  · simp [kmsKeyBranches, hname, hf, htks] at h
  · by_cases hfil : tks.filter (fun k => k.name == cfg.keyName) = []
    · simp [kmsKeyBranches, hname, hf, htks, hfil] at h
    · cases hbm : buildKeyMaps api.getPolicies (tks.filter (fun k => k.name == cfg.keyName)) with
      | error e => simp [kmsKeyBranches, hname, hf, htks, hfil, hbm] at h
      | ok km =>
        simp [kmsKeyBranches, hname, hf, htks, hfil, hbm] at h
        refine ⟨km, ?_, buildKeyMaps_ok_proj api.getPolicies _ km hbm⟩
        simp [← h]

theorem kmsKeyBranches_keyId_getKey_error (api : KmsApi) (cfg : KmsConfig) (fuel : Nat)
    (instanceID : String) (hname : cfg.keyName = "") (hid : cfg.keyId ≠ "") (m : String)
    (hk : api.getKey cfg.keyId = Except.error m) :
    kmsKeyBranches api cfg fuel instanceID = some (Except.error (getKeysErrMsg m)) := by
  simp [kmsKeyBranches, hname, hid, hk]

theorem kmsKeyBranches_keyId_policies_error (api : KmsApi) (cfg : KmsConfig) (fuel : Nat)
    (instanceID : String) (hname : cfg.keyName = "") (hid : cfg.keyId ≠ "")
    (key : KpKey) (m : String)
    (hk : api.getKey cfg.keyId = Except.ok key)
    (hp : api.getPolicies key.id = Except.error m) :
    kmsKeyBranches api cfg fuel instanceID = some (Except.error (policiesErrMsg m)) := by
  simp [kmsKeyBranches, hname, hid, hk, hp]

theorem kmsKeyBranches_alias_getKey_error (api : KmsApi) (cfg : KmsConfig) (fuel : Nat)
    (instanceID : String) (hname : cfg.keyName = "") (hid : cfg.keyId = "") (m : String)
    (hk : api.getKey cfg.aliasName = Except.error m) :
    kmsKeyBranches api cfg fuel instanceID = some (Except.error (getKeysErrMsg m)) := by
  simp [kmsKeyBranches, hname, hid, hk]

/-! ## Propagation lemmas for the fetch phase -/

theorem fetchTotalKeys_zero_error (api : KmsApi) (cfg : KmsConfig) (fuel : Nat)
    (hz : cfg.limit = 0) (m : String) (hg : api.getKeys 0 0 = Except.error m) :
    fetchTotalKeys api cfg fuel = some (Except.error (getKeysErrMsg m)) := by
  simp [fetchTotalKeys, hz, hg]

theorem fetchTotalKeys_zero_ok (api : KmsApi) (cfg : KmsConfig) (fuel : Nat)
    (hz : cfg.limit = 0) (ks : KpKeys) (hg : api.getKeys 0 0 = Except.ok ks) :
    fetchTotalKeys api cfg fuel = some (Except.ok ks.keys) := by
  simp [fetchTotalKeys, hz, hg]

theorem fetchTotalKeys_loop (api : KmsApi) (cfg : KmsConfig) (fuel : Nat)
    (hz : cfg.limit ≠ 0) (tr : List GKCall) (r : Except String (List KpKey))
    (hl : getKeysLoop api.getKeys cfg.limit fuel 0 = some (tr, r)) :
    fetchTotalKeys api cfg fuel = some r := by
  simp [fetchTotalKeys, hz, hl]

/-! ## Propagation lemmas for the other two read handlers -/

theorem powerRead_session_error (api : PowerApi) (cid styp : String) (m : String)
    (hs : api.sessionErr = some m) :
    powerRead api cid styp = Except.error (PowerErr.fromErr m) := by
  simp [powerRead, hs]

theorem powerRead_capacity_error (api : PowerApi) (cid styp : String) (m : String)
    (hs : api.sessionErr = none) (hc : api.getStorageTypeCapacity styp = Except.error m) :
    powerRead api cid styp = Except.error (PowerErr.fromErr m) := by
  simp [powerRead, hs, hc]

theorem projRead_client_error (api : ProjectApi) (marshal : JsonVal → Except String String)
    (stringifyF : JsonVal → String) (pid cid : String) (m : String)
    (hc : api.clientErr = some m) :
    projRead api marshal stringifyF pid cid =
      Except.error (ProjErr.tfErr "(Data) ibm_project_config" "read" m) := by
  simp [projRead, hc]

theorem projRead_getConfig_error (api : ProjectApi) (marshal : JsonVal → Except String String)
    (stringifyF : JsonVal → String) (pid cid : String) (m : String)
    (hc : api.clientErr = none) (hg : api.getConfig pid cid = Except.error m) :
    projRead api marshal stringifyF pid cid =
      Except.error (ProjErr.tfErr "(Data) ibm_project_config" "read"
        ("GetConfigWithContext failed: " ++ m)) := by
  simp [projRead, hc, hg]

theorem projRead_ok_id (api : ProjectApi) (marshal : JsonVal → Except String String)
    (stringifyF : JsonVal → String) (pid cid : String) (st : ProjState)
    (h : projRead api marshal stringifyF pid cid = Except.ok st) :
    st.id = some (pid ++ "/" ++ cid) := by
  unfold projRead at h
  repeat' split at h
  all_goals simp_all
  simp [← h]

theorem powerRead_ok_state (api : PowerApi) (cid styp : String) (st : PowerState)
    (h : powerRead api cid styp = Except.ok st) :
    st.id = some (cid ++ "/" ++ styp) ∧ st.storagePoolsCapacity.isSome := by
  unfold powerRead at h
  repeat' split at h
  all_goals simp_all
  all_goals simp [← h]

theorem kmsRead_ok_branches (api : KmsApi) (cfg : KmsConfig) (fuel : Nat) (st : KmsState)
    (h : kmsRead api cfg fuel = some (Except.ok st)) :
    kmsKeyBranches api cfg fuel (extractInstanceID cfg.instanceId) = some (Except.ok st) := by
  cases hk : api.kmAPIErr with
  | some e => simp [kmsRead, hk] at h
  | none =>
    cases hr : api.rcErr with
    | some e => simp [kmsRead, hk, hr] at h
    | none =>
      by_cases hgri : (api.getResourceInstance (extractInstanceID cfg.instanceId)).err ≠ none ∨
          (api.getResourceInstance (extractInstanceID cfg.instanceId)).instanceData = none
      · simp only [kmsRead, hk, hr, if_pos hgri] at h
        simp at h
      · simp only [kmsRead, hk, hr, if_neg hgri] at h
        cases hep : api.kmsEndpointURL cfg.endpointType
            ((api.getResourceInstance (extractInstanceID cfg.instanceId)).instanceData.getD "") with
        | error e => simp [hep] at h
        | ok u => simpa only [hep] using h

/-! ## The claims -/

/-- Claim C1: in `dataSourceIBMKMSKeyRead`, when `key_name` is set and a
positive limit `L` is supplied, the keys are fetched by the pagination
loop (first conjunct: with a non-zero limit, `fetchTotalKeys` is exactly
the loop's accumulated result); every `GetKeys` call the loop issues
requests `min 200 (L - offset)` keys at its current offset and really is
the oracle call at that size and offset; the requested page sizes sum to
at most `L`; the offsets progress as `0, 200, 400, …`; and the loop stops
as soon as a page reports fewer keys than requested or the next offset
reaches `L` — every call except the last got a full page report
(`200 ≤ NumberOfKeys`) with its next offset still short of `L`. -/
theorem claim_C1_pagination :
    (∀ (api : KmsApi) (cfg : KmsConfig) (fuel : Nat), cfg.limit ≠ 0 →
      fetchTotalKeys api cfg fuel =
        Option.map (fun pr => pr.2) (getKeysLoop api.getKeys cfg.limit fuel 0)) ∧
    (∀ (g : Int → Int → Except String KpKeys) (L : Int) (fuel : Nat)
        (tr : List GKCall) (res : Except String (List KpKey)),
      0 < L →
      getKeysLoop g L fuel 0 = some (tr, res) →
      tr ≠ [] ∧
      (∀ c ∈ tr, c.size = min 200 (L - c.offset) ∧ c.result = g c.size c.offset) ∧
      (tr.map GKCall.size).sum ≤ L ∧
      tr.map GKCall.offset = (List.range tr.length).map (fun i : Nat => 200 * (i : Int)) ∧
      (∀ c ∈ tr.dropLast, ∃ ks, c.result = Except.ok ks ∧
        200 ≤ ks.metadata.numberOfKeys ∧ c.offset + 200 < L)) := by
  constructor
  · intro api cfg fuel hz
    unfold fetchTotalKeys
    rw [if_neg hz]
    cases getKeysLoop api.getKeys cfg.limit fuel 0 with
    | none => rfl
    | some p => obtain ⟨tr, r⟩ := p; rfl
  · intro g L fuel tr res hL h
    obtain ⟨hne, hcalls, hsum, hoffs, hdrop, _⟩ :=
      getKeysLoop_invariant g L fuel 0 tr res hL h
    refine ⟨hne, hcalls, by simpa using hsum, ?_, hdrop⟩
    simpa using hoffs

/-- Witness for C1 at a concrete oracle: limit 250, first page empty, one
call of size 200 at offset 0. -/
theorem claim_C1_pagination_witness :
    (0 : Int) < 250 ∧
    getKeysLoop gkEmpty 250 2 0 =
      some ([⟨200, 0, Except.ok { metadata := { numberOfKeys := 0 }, keys := [] }⟩],
        Except.ok []) ∧
    (List.map GKCall.size
      [⟨200, 0, Except.ok { metadata := { numberOfKeys := 0 }, keys := [] }⟩]).sum ≤ 250 := by
  refine ⟨by norm_num, rfl, ?_⟩
  exact (claim_C1_pagination.2 gkEmpty 250 2 _ _ (by norm_num) rfl).2.2.1

/-- Claim C2 counterexample: with the configured limit `-1` (and a benign
oracle whose pages are all empty), the pagination loop never terminates —
no iteration bound makes it produce a result, because `offset < limitVal`
is false from the start and the loop body then does nothing at all. -/
theorem claim_C2_counterexample :
    ¬ ∃ fuel : Nat, (getKeysLoop gkEmpty (-1) fuel 0).isSome := by
  rintro ⟨fuel, hf⟩
  rw [getKeysLoop_spin gkEmpty (-1) 0 (by norm_num) fuel] at hf
  simp at hf

/-- Claim C2 as amended: the pagination loop terminates for every positive
limit and every sequence of `GetKeys` responses (within `L.toNat`
iterations), while for every negative limit it never terminates, whatever
the responses; a zero limit takes the single-call path without entering
the loop. -/
theorem claim_C2_amended :
    (∀ (g : Int → Int → Except String KpKeys) (L : Int), 0 < L →
      (getKeysLoop g L L.toNat 0).isSome) ∧
    (∀ (g : Int → Int → Except String KpKeys) (L : Int), L < 0 →
      ∀ fuel : Nat, getKeysLoop g L fuel 0 = none) ∧
    (∀ (api : KmsApi) (cfg : KmsConfig) (fuel : Nat), cfg.limit = 0 →
      (fetchTotalKeys api cfg fuel).isSome) := by
  refine ⟨?_, ?_, ?_⟩
  · intro g L hL
    exact getKeysLoop_isSome g L L.toNat 0 hL (by omega)
  · intro g L hL fuel
    exact getKeysLoop_spin g L 0 (by omega) fuel
  · intro api cfg fuel hz
    unfold fetchTotalKeys
    rw [if_pos hz]
    cases api.getKeys 0 0 <;> simp

/-- Witness for the amended C2 at concrete limits 5 and -2. -/
theorem claim_C2_amended_witness :
    (0 : Int) < 5 ∧ (getKeysLoop gkEmpty 5 (Int.toNat 5) 0).isSome ∧
    (-2 : Int) < 0 ∧ getKeysLoop gkEmpty (-2) 3 0 = none ∧
    kmsCfgName.limit = 0 ∧ (fetchTotalKeys kmsApiOk kmsCfgName 1).isSome := by
  refine ⟨by norm_num, claim_C2_amended.1 gkEmpty 5 (by norm_num), by norm_num,
    claim_C2_amended.2.1 gkEmpty (-2) (by norm_num) 3, rfl,
    claim_C2_amended.2.2 kmsApiOk kmsCfgName 1 rfl⟩

/-- Claim C4: on every successful read each data source has set its
resource ID — the KMS read to the (possibly CRN-extracted) instance ID,
the power read to `cloudInstanceID/storageType` and the project read to
`projectID/configID`; a success return with an unset ID is impossible. -/
theorem claim_C4_resource_ids :
    (∀ (api : KmsApi) (cfg : KmsConfig) (fuel : Nat) (st : KmsState),
      kmsRead api cfg fuel = some (Except.ok st) →
      st.id = some (extractInstanceID cfg.instanceId)) ∧
    (∀ (api : PowerApi) (cid styp : String) (st : PowerState),
      powerRead api cid styp = Except.ok st → st.id = some (cid ++ "/" ++ styp)) ∧
    (∀ (api : ProjectApi) (marshal : JsonVal → Except String String)
        (stringifyF : JsonVal → String) (pid cid : String) (st : ProjState),
      projRead api marshal stringifyF pid cid = Except.ok st →
      st.id = some (pid ++ "/" ++ cid)) :=
  ⟨fun api cfg fuel st h => (kmsRead_ok_state api cfg fuel st h).1,
   fun api cid styp st h => (powerRead_ok_state api cid styp st h).1,
   fun api marshal stringifyF pid cid st h => projRead_ok_id api marshal stringifyF pid cid st h⟩

/-- Witness for C4: concrete successful runs of all three handlers. -/
theorem claim_C4_resource_ids_witness :
    ({ id := some "guid-1"
       keysAttr := some [{ id := "k1", name := "my-key", crn := "crn:k1",
                           standardKey := false, aliases := ["a1"],
                           keyRingId := "default", policies := none }]
       instanceIdAttr := some "guid-1" } : KmsState).id =
      some (extractInstanceID kmsCfgName.instanceId) ∧
    ({ id := some "cid/tier1"
       maximumStorageAllocation := some { maxAllocationSize := 100, storagePool := "p1",
                                          storageType := "tier1" }
       storagePoolsCapacity := some [{ maxAllocationSize := 50, poolName := "p1",
                                       storageType := "tier1",
                                       totalCapacity := 500 }] } : PowerState).id =
      some ("cid" ++ "/" ++ "tier1") := by
  constructor
  · exact claim_C4_resource_ids.1 kmsApiOk kmsCfgName 1 _ rfl
  · exact claim_C4_resource_ids.2.1 powerApiOk "cid" "tier1" _ rfl

/-- Claim C8: the KMS read does not always leave the configured
`instance_id` unchanged — when the colon-split form has more than three
segments the third-from-last segment is extracted (and, containing no
colon, necessarily differs from the CRN input), while inputs with three or
fewer segments pass through unchanged; on every successful read the
`instance_id` attribute stores exactly this extracted value. -/
theorem claim_C8_crn_extraction :
    (∀ s : String, 3 < (crnSegments s).length →
      extractInstanceID s = (crnSegments s).getD ((crnSegments s).length - 3) "" ∧
      extractInstanceID s ≠ s) ∧
    (∀ s : String, (crnSegments s).length ≤ 3 → extractInstanceID s = s) ∧
    (∀ (api : KmsApi) (cfg : KmsConfig) (fuel : Nat) (st : KmsState),
      kmsRead api cfg fuel = some (Except.ok st) →
      st.instanceIdAttr = some (extractInstanceID cfg.instanceId)) :=
  ⟨fun s h => ⟨extractInstanceID_of_lt s h, extractInstanceID_ne s h⟩,
   fun s h => extractInstanceID_of_le s h,
   fun api cfg fuel st h => (kmsRead_ok_state api cfg fuel st h).2.2⟩

/-- Witness for C8: a ten-segment CRN is rewritten to its GUID segment, a
plain GUID passes through, and a concrete successful run stores the
extracted value. -/
theorem claim_C8_crn_extraction_witness :
    extractInstanceID "crn:v1:bluemix:public:kms:us-south:a/acct:guid::" ≠
      "crn:v1:bluemix:public:kms:us-south:a/acct:guid::" ∧
    extractInstanceID "guid-1" = "guid-1" ∧
    ({ id := some "guid-1"
       keysAttr := some [{ id := "k1", name := "my-key", crn := "crn:k1",
                           standardKey := false, aliases := ["a1"],
                           keyRingId := "default", policies := none }]
       instanceIdAttr := some "guid-1" } : KmsState).instanceIdAttr =
      some (extractInstanceID kmsCfgName.instanceId) := by
  refine ⟨(claim_C8_crn_extraction.1 _ (by decide)).2,
    claim_C8_crn_extraction.2.1 "guid-1" (by decide),
    claim_C8_crn_extraction.2.2 kmsApiOk kmsCfgName 1 _ rfl⟩

/-- Claim C5: in the `key_name` branch (with the clients, the resource
instance and the endpoint all obtained successfully), an empty fetched
key list fails the read with the error naming the instance; a non-empty
list without any name match fails with the error naming the key and the
instance; and on a successful read the computed `keys` attribute consists
of exactly the fetched keys whose name equals the configured `key_name`,
in fetch order. -/
theorem claim_C5_key_name_filtering :
    (∀ (api : KmsApi) (cfg : KmsConfig) (fuel : Nat) (u : String),
      api.kmAPIErr = none → api.rcErr = none →
      (api.getResourceInstance (extractInstanceID cfg.instanceId)).err = none →
      (api.getResourceInstance (extractInstanceID cfg.instanceId)).instanceData ≠ none →
      api.kmsEndpointURL cfg.endpointType
        ((api.getResourceInstance (extractInstanceID cfg.instanceId)).instanceData.getD "") =
        Except.ok u →
      cfg.keyName ≠ "" →
      fetchTotalKeys api cfg fuel = some (Except.ok []) →
      kmsRead api cfg fuel =
        some (Except.error (noKeysMsg (extractInstanceID cfg.instanceId)))) ∧
    (∀ (api : KmsApi) (cfg : KmsConfig) (fuel : Nat) (u : String) (tks : List KpKey),
      api.kmAPIErr = none → api.rcErr = none →
      (api.getResourceInstance (extractInstanceID cfg.instanceId)).err = none →
      (api.getResourceInstance (extractInstanceID cfg.instanceId)).instanceData ≠ none →
      api.kmsEndpointURL cfg.endpointType
        ((api.getResourceInstance (extractInstanceID cfg.instanceId)).instanceData.getD "") =
        Except.ok u →
      cfg.keyName ≠ "" →
      fetchTotalKeys api cfg fuel = some (Except.ok tks) →
      tks ≠ [] →
      tks.filter (fun k => k.name == cfg.keyName) = [] →
      kmsRead api cfg fuel =
        some (Except.error
          (noKeysWithNameMsg cfg.keyName (extractInstanceID cfg.instanceId)))) ∧
    (∀ (api : KmsApi) (cfg : KmsConfig) (fuel : Nat) (tks : List KpKey) (st : KmsState),
      cfg.keyName ≠ "" →
      fetchTotalKeys api cfg fuel = some (Except.ok tks) →
      kmsRead api cfg fuel = some (Except.ok st) →
      ∃ l, st.keysAttr = some l ∧
        l.map keyInstanceProj =
          (tks.filter (fun k => k.name == cfg.keyName)).map kpKeyProj) := by
  refine ⟨?_, ?_, ?_⟩
  · intro api cfg fuel u hk hr he hd hu hname hf
    rw [kmsRead_eq_branches api cfg fuel hk hr he hd u hu]
    exact kmsKeyBranches_no_keys api cfg fuel _ hname hf
  · intro api cfg fuel u tks hk hr he hd hu hname hf htks hfil
    rw [kmsRead_eq_branches api cfg fuel hk hr he hd u hu]
    exact kmsKeyBranches_no_match api cfg fuel _ hname tks hf htks hfil
  · intro api cfg fuel tks st hname hf h
    exact kmsKeyBranches_name_ok api cfg fuel _ hname tks hf st
      (kmsRead_ok_branches api cfg fuel st h)

/-- Witness for C5: a concrete run over two fetched keys of which exactly
one matches, plus concrete empty-list and no-match failures. -/
theorem claim_C5_key_name_filtering_witness :
    kmsRead { kmsApiOk with getKeys := gkEmpty } kmsCfgName 1 =
      some (Except.error (noKeysMsg (extractInstanceID kmsCfgName.instanceId))) ∧
    kmsRead kmsApiOk { kmsCfgName with keyName := "absent" } 1 =
      some (Except.error
        (noKeysWithNameMsg "absent" (extractInstanceID kmsCfgName.instanceId))) ∧
    ∃ l, ({ id := some "guid-1"
            keysAttr := some [{ id := "k1", name := "my-key", crn := "crn:k1",
                                standardKey := false, aliases := ["a1"],
                                keyRingId := "default", policies := none }]
            instanceIdAttr := some "guid-1" } : KmsState).keysAttr = some l ∧
      l.map keyInstanceProj =
        ([kSample, kOther].filter (fun k => k.name == kmsCfgName.keyName)).map kpKeyProj := by
  refine ⟨?_, ?_, ?_⟩
  · exact claim_C5_key_name_filtering.1 { kmsApiOk with getKeys := gkEmpty }
      kmsCfgName 1 "https://kms.example" rfl rfl rfl (by simp [kmsApiOk]) rfl
      (by simp [kmsCfgName]) rfl
  · exact claim_C5_key_name_filtering.2.1 kmsApiOk { kmsCfgName with keyName := "absent" }
      1 "https://kms.example" [kSample, kOther] rfl rfl rfl (by simp [kmsApiOk]) rfl
      (by simp [kmsCfgName]) rfl (by simp) (by simp [kSample, kOther])
  · exact claim_C5_key_name_filtering.2.2 kmsApiOk kmsCfgName 1 [kSample, kOther] _
      (by simp [kmsCfgName]) rfl rfl

/-- Claim C6: on every successful power read, the
`storage_pools_capacity` attribute holds exactly one entry per pool of the
response, in order, carrying that pool's maximum allocation size, pool
name, storage type and total capacity; and the
`maximum_storage_allocation` attribute is set if and only if the
response's `MaximumStorageAllocation` is non-nil. -/
theorem claim_C6_power_flatten :
    ∀ (api : PowerApi) (cid styp : String) (resp : StorageTypeCapacity) (st : PowerState),
      api.sessionErr = none →
      api.getStorageTypeCapacity styp = Except.ok resp →
      powerRead api cid styp = Except.ok st →
      (∃ l, st.storagePoolsCapacity = some l ∧
        List.Forall₂ poolRel resp.storagePoolsCapacity l) ∧
      (st.maximumStorageAllocation.isSome ↔ resp.maximumStorageAllocation.isSome) := by
  intro api cid styp resp st hs hc h
  cases hm : resp.maximumStorageAllocation with
  | some msa =>
    cases hfm : flattenMsa msa with
    | error e => simp [powerRead, hs, hc, hm, hfm] at h
    | ok m =>
      cases hfp : flattenPools resp.storagePoolsCapacity with
      | error e => simp [powerRead, hs, hc, hm, hfm, hfp] at h
      | ok pools =>
        simp only [powerRead, hs, hc, hm, hfm, hfp, Except.ok.injEq] at h
        refine ⟨⟨pools, ?_, flattenPools_ok_rel resp.storagePoolsCapacity pools hfp⟩, ?_⟩
        · simp [← h]
        · simp [← h]
  | none =>
    cases hfp : flattenPools resp.storagePoolsCapacity with
    | error e => simp [powerRead, hs, hc, hm, hfp] at h
    | ok pools =>
      simp only [powerRead, hs, hc, hm, hfp, Except.ok.injEq] at h
      refine ⟨⟨pools, ?_, flattenPools_ok_rel resp.storagePoolsCapacity pools hfp⟩, ?_⟩
      · simp [← h]
      · simp [← h]

/-- Witness for C6 at the concrete successful power run. -/
theorem claim_C6_power_flatten_witness :
    (∃ l, ({ id := some "cid/tier1"
             maximumStorageAllocation := some { maxAllocationSize := 100, storagePool := "p1",
                                                storageType := "tier1" }
             storagePoolsCapacity := some [{ maxAllocationSize := 50, poolName := "p1",
                                             storageType := "tier1",
                                             totalCapacity := 500 }] } :
        PowerState).storagePoolsCapacity = some l ∧
      List.Forall₂ poolRel
        [{ maxAllocationSize := some 50, poolName := "p1", storageType := "tier1",
           totalCapacity := 500 }] l) := by
  exact (claim_C6_power_flatten powerApiOk "cid" "tier1"
    { maximumStorageAllocation := some
        { maxAllocationSize := some 100, storagePool := "p1", storageType := "tier1" }
      storagePoolsCapacity :=
        [{ maxAllocationSize := some 50, poolName := "p1", storageType := "tier1",
           totalCapacity := 500 }] } _ rfl rfl rfl).1

/-- Claim C9 counterexample: a well-typed SDK response whose non-nil
`MaximumStorageAllocation` has nil inner pointers makes the handler
dereference nil — the run ends in the nil-dereference panic, not in a
normal return. -/
theorem claim_C9_counterexample :
    powerRead powerApiNilInner "cid" "tier1" = Except.error PowerErr.nilDeref := rfl

/-- Claim C9 as amended: the handler guards only
`stc.MaximumStorageAllocation` itself against nil; it dereferences that
struct's `MaxAllocationSize`, `StoragePool` and `StorageType` and every
pool entry's `MaxAllocationSize` unconditionally, so it completes without
a nil-pointer dereference exactly when those inner pointers are all
non-nil in the response it received. -/
theorem claim_C9_amended :
    ∀ (api : PowerApi) (cid styp : String) (resp : StorageTypeCapacity),
      api.getStorageTypeCapacity styp = Except.ok resp →
      (∀ msa, resp.maximumStorageAllocation = some msa →
        msa.maxAllocationSize.isSome ∧ msa.storagePool.isSome ∧ msa.storageType.isSome) →
      (∀ sp ∈ resp.storagePoolsCapacity, sp.maxAllocationSize.isSome) →
      powerRead api cid styp ≠ Except.error PowerErr.nilDeref := by
  intro api cid styp resp hc hmsa hpools
  cases hs : api.sessionErr with
  | some e => simp [powerRead, hs]
  | none =>
    obtain ⟨pools, hp⟩ := flattenPools_isOk resp.storagePoolsCapacity hpools
    cases hm : resp.maximumStorageAllocation with
    | none => simp [powerRead, hs, hc, hm, hp]
    | some msa =>
      obtain ⟨h1, h2, h3⟩ := hmsa msa hm
      obtain ⟨a, ha⟩ := Option.isSome_iff_exists.mp h1
      obtain ⟨b, hb⟩ := Option.isSome_iff_exists.mp h2
      obtain ⟨c, hcc⟩ := Option.isSome_iff_exists.mp h3
      simp [powerRead, hs, hc, hm, hp, flattenMsa, ha, hb, hcc]

/-- Witness for the amended C9 at the concrete all-pointers-present
response. -/
theorem claim_C9_amended_witness :
    powerRead powerApiOk "cid" "tier1" ≠ Except.error PowerErr.nilDeref := by
  refine claim_C9_amended powerApiOk "cid" "tier1"
    { maximumStorageAllocation := some
        { maxAllocationSize := some 100, storagePool := "p1", storageType := "tier1" }
      storagePoolsCapacity :=
        [{ maxAllocationSize := some 50, poolName := "p1", storageType := "tier1",
           totalCapacity := 500 }] } rfl ?_ ?_
  · intro msa hm
    simp only [Option.some.injEq] at hm
    simp [← hm]
  · intro sp hsp
    simp only [List.mem_singleton] at hsp
    simp [hsp]

/-- Claim C10 counterexample: an `OutputValue` with a non-nil `Value` on
which `json.Marshal` fails does not make the function return a nil error
and a map — the source then unmarshals the nil output of the failed
marshal and the type assertion on the resulting nil interface panics
before anything is returned. -/
theorem claim_C10_counterexample :
    outputValueToMap marshalFail stringify0
      { name := some "o", description := none, value := some { raw := "x" } } =
      Except.error ProjPanic.nilTypeAssertion := rfl

/-- Claim C10 as amended: for every `OutputValue` with a non-nil `Value`,
when `json.Marshal` of the value succeeds the function returns a nil
error and a map whose `value_json` holds the stringified value and whose
deprecated `value` entry is never populated; when `json.Marshal` fails
the function panics through the nil type assertion instead of returning,
so the `value` entry is never populated in any case. -/
theorem claim_C10_amended :
    ∀ (marshal : JsonVal → Except String String) (stringifyF : JsonVal → String)
      (model : OutputValue) (v : JsonVal), model.value = some v →
      (∀ s, marshal v = Except.ok s →
        ∃ mm, outputValueToMap marshal stringifyF model = Except.ok mm ∧
          mm.value_json = some (stringifyF v) ∧ mm.value = none) ∧
      (∀ e, marshal v = Except.error e →
        outputValueToMap marshal stringifyF model =
          Except.error ProjPanic.nilTypeAssertion) := by
  intro marshal stringifyF model v hv
  constructor
  · intro s hm
    refine ⟨{ name := model.name, description := model.description,
              value_json := some (stringifyF v), value := none }, ?_, rfl, rfl⟩
    simp [outputValueToMap, hv, hm]
  · intro e hm
    simp [outputValueToMap, hv, hm]

/-- Witness for the amended C10 at a succeeding and a failing marshal. -/
theorem claim_C10_amended_witness :
    (∃ mm, outputValueToMap marshalOk stringify0
        { name := some "o", description := none, value := some { raw := "x" } } =
        Except.ok mm ∧
      mm.value_json = some (stringify0 { raw := "x" }) ∧ mm.value = none) ∧
    outputValueToMap marshalFail stringify0
      { name := some "p", description := none, value := some { raw := "y" } } =
      Except.error ProjPanic.nilTypeAssertion := by
  constructor
  · exact (claim_C10_amended marshalOk stringify0 _ { raw := "x" } rfl).1 "x" rfl
  · exact (claim_C10_amended marshalFail stringify0 _ { raw := "y" } rfl).2
      "json: unsupported value" rfl

/-- Claim C7: the `ibm_kms_key` schema declares `alias`, `key_name` and
`key_id` in a common `ExactlyOneOf` group, whose induced constraint
accepts a configuration exactly when precisely one of the three is set;
and `endpoint_type` carries the allowed-values validator for `public` and
`private` (accepting exactly those two strings) with declared default
`public`, which is the effective value when the attribute is omitted. -/
theorem claim_C7_schema :
    (lookupField "key_id").map SchemaField.exactlyOneOf =
      some ["alias", "key_name", "key_id"] ∧
    (lookupField "key_name").map SchemaField.exactlyOneOf =
      some ["alias", "key_name", "key_id"] ∧
    (lookupField "alias").map SchemaField.exactlyOneOf =
      some ["alias", "key_name", "key_id"] ∧
    (∀ isSet : String → Bool,
      exactlyOneOfOK kmsKeySchema isSet = true ↔
        ((isSet "alias" = true ∧ isSet "key_name" = false ∧ isSet "key_id" = false) ∨
         (isSet "alias" = false ∧ isSet "key_name" = true ∧ isSet "key_id" = false) ∨
         (isSet "alias" = false ∧ isSet "key_name" = false ∧ isSet "key_id" = true))) ∧
    (∀ s : String,
      validateAllowedStringValues ["public", "private"] s = true ↔
        (s = "public" ∨ s = "private")) ∧
    (lookupField "endpoint_type").map SchemaField.defaultVal = some (some "public") ∧
    (∀ v : Option String, effectiveEndpointType v = v.getD "public") := by
  refine ⟨rfl, rfl, rfl, ?_, ?_, rfl, ?_⟩
  · intro isSet
    cases ha : isSet "alias" <;> cases hn : isSet "key_name" <;> cases hi : isSet "key_id" <;>
      simp [exactlyOneOfOK, kmsKeySchema, blankField, ha, hn, hi, List.filter]
  · intro s
    constructor
    · intro h
      simp only [validateAllowedStringValues, List.any_cons, List.any_nil,
        Bool.or_false, Bool.or_eq_true, beq_iff_eq] at h
      rcases h with h | h
      · exact Or.inl h.symm
      · exact Or.inr h.symm
    · intro h
      rcases h with h | h <;> simp [validateAllowedStringValues, h]
  · intro v
    cases v <;> rfl

/-! ## Wrapping facts for the error formats -/

theorem wraps_getKeysErrMsg (m : String) : wrapsWithContext (getKeysErrMsg m) m := by
  refine ⟨"[ERROR] Get Keys failed with error: ", "", ?_, by decide⟩
  simp [getKeysErrMsg]

theorem wraps_policiesErrMsg (m : String) : wrapsWithContext (policiesErrMsg m) m := by
  refine ⟨"[ERROR] Failed to read policies: ", "", ?_, by decide⟩
  simp [policiesErrMsg]

theorem wraps_resourceInstanceErrMsg (m resp : String) :
    wrapsWithContext (resourceInstanceErrMsg m resp) m := by
  refine ⟨"[ERROR] Error retrieving resource instance: ",
    " with resp code: " ++ resp, ?_, by decide⟩
  simp [resourceInstanceErrMsg, String.append_assoc]

theorem wraps_getConfigMsg (m : String) :
    wrapsWithContext ("GetConfigWithContext failed: " ++ m) m := by
  refine ⟨"GetConfigWithContext failed: ", "", ?_, by decide⟩
  simp

/-- Claim C3 counterexample: when `GetStorageTypeCapacity` fails with the
bare message `boom`, `dataSourceIBMPIStorageTypeCapacityRead` returns the
diagnostic `diag.FromErr` builds — its summary is exactly `boom`, and no
decomposition of it wraps the SDK message together with a non-empty
contextual prefix, so the claim's "wraps the SDK's own error value
together with a short contextual message" fails for this handler. -/
theorem claim_C3_counterexample :
    powerRead powerApiBoom "cid" "tier1" = Except.error (PowerErr.fromErr "boom") ∧
    ¬ wrapsWithContext "boom" "boom" := by
  refine ⟨rfl, ?_⟩
  rintro ⟨p, q, h, hp⟩
  have hl := congrArg String.length h
  have h4 : ("boom" : String).length = 4 := rfl
  rw [String.length_append, String.length_append, h4] at hl
  have hzero : p.length = 0 := by omega
  apply hp
  cases p with
  | mk d =>
    have : d.length = 0 := hzero
    simp only [List.length_eq_zero] at this
    simp [this]

theorem kmsRead_kmAPI_error (api : KmsApi) (cfg : KmsConfig) (fuel : Nat) (m : String)
    (hk : api.kmAPIErr = some m) :
    kmsRead api cfg fuel = some (Except.error m) := by
  simp [kmsRead, hk]

theorem kmsRead_rc_error (api : KmsApi) (cfg : KmsConfig) (fuel : Nat) (m : String)
    (hk : api.kmAPIErr = none) (hr : api.rcErr = some m) :
    kmsRead api cfg fuel = some (Except.error m) := by
  simp [kmsRead, hk, hr]

theorem kmsRead_endpoint_error (api : KmsApi) (cfg : KmsConfig) (fuel : Nat) (m : String)
    (hk : api.kmAPIErr = none) (hr : api.rcErr = none)
    (he : (api.getResourceInstance (extractInstanceID cfg.instanceId)).err = none)
    (hd : (api.getResourceInstance (extractInstanceID cfg.instanceId)).instanceData ≠ none)
    (hu : api.kmsEndpointURL cfg.endpointType
        ((api.getResourceInstance (extractInstanceID cfg.instanceId)).instanceData.getD "") =
      Except.error m) :
    kmsRead api cfg fuel = some (Except.error m) := by
  simp [kmsRead, hk, hr, he, hd, hu]

theorem kmsKeyBranches_name_policies_error (api : KmsApi) (cfg : KmsConfig) (fuel : Nat)
    (instanceID : String) (hname : cfg.keyName ≠ "") (tks : List KpKey)
    (hf : fetchTotalKeys api cfg fuel = some (Except.ok tks)) (htks : tks ≠ [])
    (hfil : tks.filter (fun k => k.name == cfg.keyName) ≠ []) (e : String)
    (hbm : buildKeyMaps api.getPolicies (tks.filter (fun k => k.name == cfg.keyName)) =
      Except.error e) :
    kmsKeyBranches api cfg fuel instanceID = some (Except.error e) := by
  simp [kmsKeyBranches, hname, hf, htks, hfil, hbm]

theorem kmsKeyBranches_alias_policies_error (api : KmsApi) (cfg : KmsConfig) (fuel : Nat)
    (instanceID : String) (hname : cfg.keyName = "") (hid : cfg.keyId = "")
    (key : KpKey) (m : String)
    (hk : api.getKey cfg.aliasName = Except.ok key)
    (hp : api.getPolicies key.id = Except.error m) :
    kmsKeyBranches api cfg fuel instanceID = some (Except.error (policiesErrMsg m)) := by
  simp [kmsKeyBranches, hname, hid, hk, hp]

/-- Claim C3 as amended: for every failing SDK call the execution reaches,
each read handler stops and returns a non-nil error or diagnostic that
carries the SDK's own error value; no error is swallowed and no retry is
attempted.  The errors of the KMS handler's remote data calls —
`GetResourceInstance`, `GetKeys` (zero-limit and paginated), and `GetKey`
and `GetPolicies` in all three query branches — are wrapped with a short
contextual message, and the project handler wraps both of its failures
into a diagnostic tagged with the data source and operation; but the
errors of obtaining the two KMS clients (lines 182 and 194) and of
resolving the KMS endpoint URL are returned raw, and the power handler
converts both of its failures into diagnostics unchanged — none of these
adds a contextual message.  The conjuncts cover, in order:
`KeyManagementAPI`, `ResourceControllerV2API`, `GetResourceInstance`,
`KmsEndpointURL`, `GetKeys` with the zero limit, `GetKeys` inside the
pagination loop, `GetPolicies` in the `key_name` branch, `GetKey` and
`GetPolicies` in the `key_id` branch, `GetKey` and `GetPolicies` in the
`alias` branch; the session and `GetStorageTypeCapacity` of the power
read; and the client and `GetConfigWithContext` of the project read. -/
theorem claim_C3_amended :
    (∀ (api : KmsApi) (cfg : KmsConfig) (fuel : Nat) (m : String),
      api.kmAPIErr = some m →
      kmsRead api cfg fuel = some (Except.error m)) ∧
    (∀ (api : KmsApi) (cfg : KmsConfig) (fuel : Nat) (m : String),
      api.kmAPIErr = none → api.rcErr = some m →
      kmsRead api cfg fuel = some (Except.error m)) ∧
    (∀ (api : KmsApi) (cfg : KmsConfig) (fuel : Nat) (m : String),
      api.kmAPIErr = none → api.rcErr = none →
      (api.getResourceInstance (extractInstanceID cfg.instanceId)).err = some m →
      kmsRead api cfg fuel = some (Except.error
        (resourceInstanceErrMsg m
          (api.getResourceInstance (extractInstanceID cfg.instanceId)).resp)) ∧
      wrapsWithContext
        (resourceInstanceErrMsg m
          (api.getResourceInstance (extractInstanceID cfg.instanceId)).resp) m) ∧
    (∀ (api : KmsApi) (cfg : KmsConfig) (fuel : Nat) (m : String),
      api.kmAPIErr = none → api.rcErr = none →
      (api.getResourceInstance (extractInstanceID cfg.instanceId)).err = none →
      (api.getResourceInstance (extractInstanceID cfg.instanceId)).instanceData ≠ none →
      api.kmsEndpointURL cfg.endpointType
        ((api.getResourceInstance (extractInstanceID cfg.instanceId)).instanceData.getD "") =
        Except.error m →
      kmsRead api cfg fuel = some (Except.error m)) ∧
    (∀ (api : KmsApi) (cfg : KmsConfig) (fuel : Nat) (u m : String),
      api.kmAPIErr = none → api.rcErr = none →
      (api.getResourceInstance (extractInstanceID cfg.instanceId)).err = none →
      (api.getResourceInstance (extractInstanceID cfg.instanceId)).instanceData ≠ none →
      api.kmsEndpointURL cfg.endpointType
        ((api.getResourceInstance (extractInstanceID cfg.instanceId)).instanceData.getD "") =
        Except.ok u →
      cfg.keyName ≠ "" → cfg.limit = 0 →
      api.getKeys 0 0 = Except.error m →
      kmsRead api cfg fuel = some (Except.error (getKeysErrMsg m)) ∧
      wrapsWithContext (getKeysErrMsg m) m) ∧
    (∀ (api : KmsApi) (cfg : KmsConfig) (fuel : Nat) (u e : String) (tr : List GKCall),
      api.kmAPIErr = none → api.rcErr = none →
      (api.getResourceInstance (extractInstanceID cfg.instanceId)).err = none →
      (api.getResourceInstance (extractInstanceID cfg.instanceId)).instanceData ≠ none →
      api.kmsEndpointURL cfg.endpointType
        ((api.getResourceInstance (extractInstanceID cfg.instanceId)).instanceData.getD "") =
        Except.ok u →
      cfg.keyName ≠ "" → cfg.limit ≠ 0 →
      getKeysLoop api.getKeys cfg.limit fuel 0 = some (tr, Except.error e) →
      kmsRead api cfg fuel = some (Except.error e) ∧
      ∃ c ∈ tr, ∃ m, c.result = Except.error m ∧ e = getKeysErrMsg m ∧
        wrapsWithContext e m) ∧
    (∀ (api : KmsApi) (cfg : KmsConfig) (fuel : Nat) (u e : String) (tks : List KpKey),
      api.kmAPIErr = none → api.rcErr = none →
      (api.getResourceInstance (extractInstanceID cfg.instanceId)).err = none →
      (api.getResourceInstance (extractInstanceID cfg.instanceId)).instanceData ≠ none →
      api.kmsEndpointURL cfg.endpointType
        ((api.getResourceInstance (extractInstanceID cfg.instanceId)).instanceData.getD "") =
        Except.ok u →
      cfg.keyName ≠ "" →
      fetchTotalKeys api cfg fuel = some (Except.ok tks) →
      tks ≠ [] →
      tks.filter (fun k => k.name == cfg.keyName) ≠ [] →
      buildKeyMaps api.getPolicies (tks.filter (fun k => k.name == cfg.keyName)) =
        Except.error e →
      kmsRead api cfg fuel = some (Except.error e) ∧
      ∃ k ∈ tks.filter (fun k => k.name == cfg.keyName), ∃ m,
        api.getPolicies k.id = Except.error m ∧ e = policiesErrMsg m ∧
        wrapsWithContext e m) ∧
    (∀ (api : KmsApi) (cfg : KmsConfig) (fuel : Nat) (u m : String),
      api.kmAPIErr = none → api.rcErr = none →
      (api.getResourceInstance (extractInstanceID cfg.instanceId)).err = none →
      (api.getResourceInstance (extractInstanceID cfg.instanceId)).instanceData ≠ none →
      api.kmsEndpointURL cfg.endpointType
        ((api.getResourceInstance (extractInstanceID cfg.instanceId)).instanceData.getD "") =
        Except.ok u →
      cfg.keyName = "" → cfg.keyId ≠ "" →
      api.getKey cfg.keyId = Except.error m →
      kmsRead api cfg fuel = some (Except.error (getKeysErrMsg m)) ∧
      wrapsWithContext (getKeysErrMsg m) m) ∧
    (∀ (api : KmsApi) (cfg : KmsConfig) (fuel : Nat) (u m : String) (key : KpKey),
      api.kmAPIErr = none → api.rcErr = none →
      (api.getResourceInstance (extractInstanceID cfg.instanceId)).err = none →
      (api.getResourceInstance (extractInstanceID cfg.instanceId)).instanceData ≠ none →
      api.kmsEndpointURL cfg.endpointType
        ((api.getResourceInstance (extractInstanceID cfg.instanceId)).instanceData.getD "") =
        Except.ok u →
      cfg.keyName = "" → cfg.keyId ≠ "" →
      api.getKey cfg.keyId = Except.ok key →
      api.getPolicies key.id = Except.error m →
      kmsRead api cfg fuel = some (Except.error (policiesErrMsg m)) ∧
      wrapsWithContext (policiesErrMsg m) m) ∧
    (∀ (api : KmsApi) (cfg : KmsConfig) (fuel : Nat) (u m : String),
      api.kmAPIErr = none → api.rcErr = none →
      (api.getResourceInstance (extractInstanceID cfg.instanceId)).err = none →
      (api.getResourceInstance (extractInstanceID cfg.instanceId)).instanceData ≠ none →
      api.kmsEndpointURL cfg.endpointType
        ((api.getResourceInstance (extractInstanceID cfg.instanceId)).instanceData.getD "") =
        Except.ok u →
      cfg.keyName = "" → cfg.keyId = "" →
      api.getKey cfg.aliasName = Except.error m →
      kmsRead api cfg fuel = some (Except.error (getKeysErrMsg m)) ∧
      wrapsWithContext (getKeysErrMsg m) m) ∧
    (∀ (api : KmsApi) (cfg : KmsConfig) (fuel : Nat) (u m : String) (key : KpKey),
      api.kmAPIErr = none → api.rcErr = none →
      (api.getResourceInstance (extractInstanceID cfg.instanceId)).err = none →
      (api.getResourceInstance (extractInstanceID cfg.instanceId)).instanceData ≠ none →
      api.kmsEndpointURL cfg.endpointType
        ((api.getResourceInstance (extractInstanceID cfg.instanceId)).instanceData.getD "") =
        Except.ok u →
      cfg.keyName = "" → cfg.keyId = "" →
      api.getKey cfg.aliasName = Except.ok key →
      api.getPolicies key.id = Except.error m →
      kmsRead api cfg fuel = some (Except.error (policiesErrMsg m)) ∧
      wrapsWithContext (policiesErrMsg m) m) ∧
    (∀ (api : PowerApi) (cid styp m : String),
      api.sessionErr = some m →
      powerRead api cid styp = Except.error (PowerErr.fromErr m)) ∧
    (∀ (api : PowerApi) (cid styp m : String),
      api.sessionErr = none →
      api.getStorageTypeCapacity styp = Except.error m →
      powerRead api cid styp = Except.error (PowerErr.fromErr m)) ∧
    (∀ (api : ProjectApi) (marshal : JsonVal → Except String String)
        (stringifyF : JsonVal → String) (pid cid m : String),
      api.clientErr = some m →
      projRead api marshal stringifyF pid cid =
        Except.error (ProjErr.tfErr "(Data) ibm_project_config" "read" m)) ∧
    (∀ (api : ProjectApi) (marshal : JsonVal → Except String String)
        (stringifyF : JsonVal → String) (pid cid m : String),
      api.clientErr = none →
      api.getConfig pid cid = Except.error m →
      projRead api marshal stringifyF pid cid =
        Except.error (ProjErr.tfErr "(Data) ibm_project_config" "read"
          ("GetConfigWithContext failed: " ++ m)) ∧
      wrapsWithContext ("GetConfigWithContext failed: " ++ m) m) := by
  refine ⟨?_, ?_, ?_, ?_, ?_, ?_, ?_, ?_, ?_, ?_, ?_, ?_, ?_, ?_, ?_⟩
  · intro api cfg fuel m hk
    exact kmsRead_kmAPI_error api cfg fuel m hk
  · intro api cfg fuel m hk hr
    exact kmsRead_rc_error api cfg fuel m hk hr
  · intro api cfg fuel m hk hr he
    refine ⟨?_, wraps_resourceInstanceErrMsg m _⟩
    have hcond : (api.getResourceInstance (extractInstanceID cfg.instanceId)).err ≠ none ∨
        (api.getResourceInstance (extractInstanceID cfg.instanceId)).instanceData = none :=
      Or.inl (by simp [he])
    simp only [kmsRead, hk, hr, if_pos hcond]
    simp [he, errStr]
  · intro api cfg fuel m hk hr he hd hu
    exact kmsRead_endpoint_error api cfg fuel m hk hr he hd hu
  · intro api cfg fuel u m hk hr he hd hu hname hz hg
    refine ⟨?_, wraps_getKeysErrMsg m⟩
    rw [kmsRead_eq_branches api cfg fuel hk hr he hd u hu]
    exact kmsKeyBranches_fetch_error api cfg fuel _ hname (getKeysErrMsg m)
      (fetchTotalKeys_zero_error api cfg fuel hz m hg)
  · intro api cfg fuel u e tr hk hr he hd hu hname hz hl
    constructor
    · rw [kmsRead_eq_branches api cfg fuel hk hr he hd u hu]
      exact kmsKeyBranches_fetch_error api cfg fuel _ hname e
        (fetchTotalKeys_loop api cfg fuel hz tr (Except.error e) hl)
    · by_cases h0 : 0 < cfg.limit
      · obtain ⟨_, _, _, _, _, herr⟩ :=
          getKeysLoop_invariant api.getKeys cfg.limit fuel 0 tr (Except.error e) h0 hl
        obtain ⟨c, hc, m, hm, hem⟩ := herr e rfl
        exact ⟨c, hc, m, hm, hem, hem ▸ wraps_getKeysErrMsg m⟩
      · exfalso
        rw [getKeysLoop_spin api.getKeys cfg.limit 0 (by omega) fuel] at hl
        simp at hl
  · intro api cfg fuel u e tks hk hr he hd hu hname hf htks hfil hbm
    constructor
    · rw [kmsRead_eq_branches api cfg fuel hk hr he hd u hu]
      exact kmsKeyBranches_name_policies_error api cfg fuel _ hname tks hf htks hfil e hbm
    · obtain ⟨k, hkmem, m, hm, hem⟩ := buildKeyMaps_error api.getPolicies _ e hbm
      exact ⟨k, hkmem, m, hm, hem, hem ▸ wraps_policiesErrMsg m⟩
  · intro api cfg fuel u m hk hr he hd hu hname hid hg
    refine ⟨?_, wraps_getKeysErrMsg m⟩
    rw [kmsRead_eq_branches api cfg fuel hk hr he hd u hu]
    exact kmsKeyBranches_keyId_getKey_error api cfg fuel _ hname hid m hg
  · intro api cfg fuel u m key hk hr he hd hu hname hid hg hp
    refine ⟨?_, wraps_policiesErrMsg m⟩
    rw [kmsRead_eq_branches api cfg fuel hk hr he hd u hu]
    exact kmsKeyBranches_keyId_policies_error api cfg fuel _ hname hid key m hg hp
  · intro api cfg fuel u m hk hr he hd hu hname hid hg
    refine ⟨?_, wraps_getKeysErrMsg m⟩
    rw [kmsRead_eq_branches api cfg fuel hk hr he hd u hu]
    exact kmsKeyBranches_alias_getKey_error api cfg fuel _ hname hid m hg
  · intro api cfg fuel u m key hk hr he hd hu hname hid hg hp
    refine ⟨?_, wraps_policiesErrMsg m⟩
    rw [kmsRead_eq_branches api cfg fuel hk hr he hd u hu]
    exact kmsKeyBranches_alias_policies_error api cfg fuel _ hname hid key m hg hp
  · intro api cid styp m hs
    exact powerRead_session_error api cid styp m hs
  · intro api cid styp m hs hc
    exact powerRead_capacity_error api cid styp m hs hc
  · intro api marshal stringifyF pid cid m hc
    exact projRead_client_error api marshal stringifyF pid cid m hc
  · intro api marshal stringifyF pid cid m hc hg
    exact ⟨projRead_getConfig_error api marshal stringifyF pid cid m hc hg,
      wraps_getConfigMsg m⟩

/-- Witness for the amended C3: concrete failing runs of every covered
call site of the three handlers. -/
theorem claim_C3_amended_witness :
    kmsRead { kmsApiOk with kmAPIErr := some "no-km" } kmsCfgName 1 =
      some (Except.error "no-km") ∧
    kmsRead { kmsApiOk with rcErr := some "no-rc" } kmsCfgName 1 =
      some (Except.error "no-rc") ∧
    kmsRead { kmsApiOk with getResourceInstance := fun _ =>
        { err := some "ri-err", instanceData := some "ext", resp := "500" } } kmsCfgName 1 =
      some (Except.error (resourceInstanceErrMsg "ri-err" "500")) ∧
    kmsRead { kmsApiOk with kmsEndpointURL := fun _ _ => Except.error "ep" } kmsCfgName 1 =
      some (Except.error "ep") ∧
    kmsRead { kmsApiOk with getKeys := fun _ _ => Except.error "gk" } kmsCfgName 1 =
      some (Except.error (getKeysErrMsg "gk")) ∧
    kmsRead { kmsApiOk with getKeys := fun _ _ => Except.error "gk" } (kmsCfgLimit 250) 1 =
      some (Except.error (getKeysErrMsg "gk")) ∧
    kmsRead { kmsApiOk with getPolicies := fun _ => Except.error "pol" } kmsCfgName 1 =
      some (Except.error (policiesErrMsg "pol")) ∧
    kmsRead { kmsApiOk with getKey := fun _ => Except.error "missing" }
        { kmsCfgName with keyName := "", keyId := "kid" } 1 =
      some (Except.error (getKeysErrMsg "missing")) ∧
    kmsRead { kmsApiOk with getPolicies := fun _ => Except.error "pol" }
        { kmsCfgName with keyName := "", keyId := "kid" } 1 =
      some (Except.error (policiesErrMsg "pol")) ∧
    kmsRead { kmsApiOk with getKey := fun _ => Except.error "missing" }
        { kmsCfgName with keyName := "", keyId := "", aliasName := "al" } 1 =
      some (Except.error (getKeysErrMsg "missing")) ∧
    kmsRead { kmsApiOk with getPolicies := fun _ => Except.error "pol" }
        { kmsCfgName with keyName := "", keyId := "", aliasName := "al" } 1 =
      some (Except.error (policiesErrMsg "pol")) ∧
    powerRead { powerApiOk with sessionErr := some "sess" } "cid" "tier1" =
      Except.error (PowerErr.fromErr "sess") ∧
    powerRead powerApiBoom "cid" "tier1" = Except.error (PowerErr.fromErr "boom") ∧
    projRead { projApiOk with clientErr := some "cl" } marshalOk stringify0 "p1" "c1" =
      Except.error (ProjErr.tfErr "(Data) ibm_project_config" "read" "cl") ∧
    projRead projApiFail marshalOk stringify0 "p1" "c1" =
      Except.error (ProjErr.tfErr "(Data) ibm_project_config" "read"
        ("GetConfigWithContext failed: " ++ "config gone")) := by
  obtain ⟨h1, h2, h3, h4, h5, h6, h7, h8, h9, h10, h11, h12, h13, h14, h15⟩ :=
    claim_C3_amended
  refine ⟨?_, ?_, ?_, ?_, ?_, ?_, ?_, ?_, ?_, ?_, ?_, ?_, ?_, ?_, ?_⟩
  · exact h1 _ kmsCfgName 1 "no-km" rfl
  · exact h2 _ kmsCfgName 1 "no-rc" rfl rfl
  · exact (h3 _ kmsCfgName 1 "ri-err" rfl rfl rfl).1
  · exact h4 { kmsApiOk with kmsEndpointURL := fun _ _ => Except.error "ep" }
      kmsCfgName 1 "ep" rfl rfl rfl (by simp [kmsApiOk]) rfl
  · exact (h5 { kmsApiOk with getKeys := fun _ _ => Except.error "gk" }
      kmsCfgName 1 "https://kms.example" "gk" rfl rfl rfl (by simp [kmsApiOk]) rfl
      (by decide) rfl rfl).1
  · exact (h6 { kmsApiOk with getKeys := fun _ _ => Except.error "gk" }
      (kmsCfgLimit 250) 1 "https://kms.example" (getKeysErrMsg "gk")
      [⟨200, 0, Except.error "gk"⟩] rfl rfl rfl (by simp [kmsApiOk]) rfl
      (by decide) (by decide) rfl).1
  · exact (h7 { kmsApiOk with getPolicies := fun _ => Except.error "pol" }
      kmsCfgName 1 "https://kms.example" (policiesErrMsg "pol") [kSample, kOther]
      rfl rfl rfl (by simp [kmsApiOk]) rfl (by decide) rfl (by decide) (by decide) rfl).1
  · exact (h8 { kmsApiOk with getKey := fun _ => Except.error "missing" }
      { kmsCfgName with keyName := "", keyId := "kid" } 1 "https://kms.example" "missing"
      rfl rfl rfl (by simp [kmsApiOk]) rfl rfl (by decide) rfl).1
  · exact (h9 { kmsApiOk with getPolicies := fun _ => Except.error "pol" }
      { kmsCfgName with keyName := "", keyId := "kid" } 1 "https://kms.example" "pol" kSample
      rfl rfl rfl (by simp [kmsApiOk]) rfl rfl (by decide) rfl rfl).1
  · exact (h10 { kmsApiOk with getKey := fun _ => Except.error "missing" }
      { kmsCfgName with keyName := "", keyId := "", aliasName := "al" } 1
      "https://kms.example" "missing"
      rfl rfl rfl (by simp [kmsApiOk]) rfl rfl rfl rfl).1
  · exact (h11 { kmsApiOk with getPolicies := fun _ => Except.error "pol" }
      { kmsCfgName with keyName := "", keyId := "", aliasName := "al" } 1
      "https://kms.example" "pol" kSample
      rfl rfl rfl (by simp [kmsApiOk]) rfl rfl rfl rfl rfl).1
  · exact h12 { powerApiOk with sessionErr := some "sess" } "cid" "tier1" "sess" rfl
  · exact h13 powerApiBoom "cid" "tier1" "boom" rfl rfl
  · exact h14 { projApiOk with clientErr := some "cl" } marshalOk stringify0
      "p1" "c1" "cl" rfl
  · exact (h15 projApiFail marshalOk stringify0 "p1" "c1" "config gone" rfl rfl).1
